import Mathlib

/-!
Verification of the spiking-neural-network simulator.

This file gives a shallow embedding, over `ℚ`, of the simulation engine:
the neuron models (`src/brain/neurons.ts` and the trace-carrying LIF neuron),
the synapse models (pair-based STDP, trace-based STDP, homeostatic STDP,
inhibitory, recurrent short-term-plasticity), the `SpikingLayer` WTA layer,
the `RecurrentSNN` and `SimpleSTDPNetwork` orchestrators, and the
`runExperiment` driver with its seeded linear-congruential generator.

Conventions used throughout the embedding:
* JavaScript numbers are modelled by `ℚ`.  `Math.exp` is transcendental, so
  every function that calls it takes an extra parameter `E : ℚ → ℚ` standing
  for `Math.exp`; theorems quantify over `E`.
* `-Infinity` sentinels (`tLastSpike` initial values) are modelled by
  `Option ℚ` with `none` for `-Infinity`; the guard
  `tMs - tLastSpike < refractoryMs` is false at `-Infinity`, matching `none`.
* Mutable objects become records threaded through functions; a method that
  mutates its object returns the updated record (plus its return value).
* Array reads `a[i]` appear only at indices that are in range at every call
  site of the source; they are modelled by `List.getD` with a default.
-/

set_option maxRecDepth 4000

/-- Computes `Math.max lo (Math.min hi x)`, the saturating clamp used by every
weight and homeostatic-factor update in the source. -/
def clampQ (lo hi x : ℚ) : ℚ := max lo (min hi x)

/-- Refractory guard `tMs - tLastSpike < refractoryMs` where `tLastSpike` may
be `-Infinity` (modelled as `none`, for which the guard is false). -/
def inRefr (tLast : Option ℚ) (tMs refractoryMs : ℚ) : Bool :=
  match tLast with
  | none => false
  | some ts => decide (tMs - ts < refractoryMs)

namespace NeuronsTs

/-- Parameters of `LIFNeuron` (`src/brain/neurons.ts`), with the `??` defaults
of its constructor as default field values. -/
structure LIFParams where
  tauMs : ℚ := 20
  vRest : ℚ := 0
  vReset : ℚ := 0
  vThreshold : ℚ := 1
  refractoryMs : ℚ := 2
deriving DecidableEq

/-- State of `LIFNeuron` (`src/brain/neurons.ts`). -/
structure LIFNeuron where
  params : LIFParams
  v : ℚ
  tLastSpike : Option ℚ
deriving DecidableEq

/-- The `LIFNeuron` constructor. -/
def LIFNeuron.create (p : LIFParams) : LIFNeuron :=
  { params := p, v := p.vRest, tLastSpike := none }

instance : Inhabited LIFNeuron := ⟨LIFNeuron.create {}⟩

/-- Models `LIFNeuron.reset`. -/
def LIFNeuron.reset (n : LIFNeuron) : LIFNeuron :=
  { n with v := n.params.vRest, tLastSpike := none }

/-- Models `LIFNeuron.step(inputCurrent, dtMs, tMs)`; returns the updated
neuron and whether it spiked. -/
def LIFNeuron.step (n : LIFNeuron) (inputCurrent dtMs tMs : ℚ) :
    LIFNeuron × Bool :=
  let p := n.params
  if inRefr n.tLastSpike tMs p.refractoryMs then
    ({ n with v := p.vReset }, false)
  else
    let dv := (-(n.v - p.vRest) / p.tauMs + inputCurrent) * dtMs
    let v1 := n.v + dv
    if p.vThreshold ≤ v1 then
      ({ n with v := p.vReset, tLastSpike := some tMs }, true)
    else
      ({ n with v := v1 }, false)

/-- Parameters of `AdaptiveLIFNeuron`, with its constructor defaults. -/
structure AdaptiveLIFParams where
  tauMs : ℚ := 20
  vRest : ℚ := 0
  vReset : ℚ := 0
  vThreshold : ℚ := 1
  refractoryMs : ℚ := 2
  tauAdapt : ℚ := 100
  bAdapt : ℚ := 0.05
deriving DecidableEq

/-- State of `AdaptiveLIFNeuron` (`src/brain/neurons.ts`). -/
structure AdaptiveLIFNeuron where
  p : AdaptiveLIFParams
  v : ℚ
  adaptation : ℚ
  tLastSpike : Option ℚ
  spikeCount : ℕ
deriving DecidableEq

/-- The `AdaptiveLIFNeuron` constructor. -/
def AdaptiveLIFNeuron.create (p : AdaptiveLIFParams) : AdaptiveLIFNeuron :=
  { p := p, v := p.vRest, adaptation := 0, tLastSpike := none, spikeCount := 0 }

instance : Inhabited AdaptiveLIFNeuron := ⟨AdaptiveLIFNeuron.create {}⟩

/-- Models `AdaptiveLIFNeuron.reset`. -/
def AdaptiveLIFNeuron.reset (n : AdaptiveLIFNeuron) : AdaptiveLIFNeuron :=
  { n with v := n.p.vRest, adaptation := 0, tLastSpike := none, spikeCount := 0 }

/-- Models `AdaptiveLIFNeuron.step`. -/
def AdaptiveLIFNeuron.step (n : AdaptiveLIFNeuron) (inputCurrent dtMs tMs : ℚ) :
    AdaptiveLIFNeuron × Bool :=
  let p := n.p
  if inRefr n.tLastSpike tMs p.refractoryMs then
    ({ n with v := p.vReset }, false)
  else
    let adaptation1 := n.adaptation + -n.adaptation / p.tauAdapt * dtMs
    let dv := (-(n.v - p.vRest) / p.tauMs + inputCurrent - adaptation1) * dtMs
    let v1 := n.v + dv
    if p.vThreshold ≤ v1 then
      ({ n with v := p.vReset, tLastSpike := some tMs,
                adaptation := adaptation1 + p.bAdapt,
                spikeCount := n.spikeCount + 1 }, true)
    else
      ({ n with v := v1, adaptation := adaptation1 }, false)

/-- Parameters of `BurstingNeuron`, with its constructor defaults. -/
structure BurstingParams where
  tauMs : ℚ := 20
  vRest : ℚ := 0
  vReset : ℚ := 0
  vThreshold : ℚ := 1
  refractoryMs : ℚ := 1
  burstSize : ℤ := 3
  intraBurstInterval : ℚ := 3
  tauBurst : ℚ := 200
  bBurst : ℚ := 0.15
deriving DecidableEq

/-- State of `BurstingNeuron` (`src/brain/neurons.ts`). -/
structure BurstingNeuron where
  p : BurstingParams
  v : ℚ
  burstVar : ℚ
  tLastSpike : Option ℚ
  spikeCount : ℕ
  burstRemaining : ℤ
  burstTimer : ℚ
deriving DecidableEq

/-- The `BurstingNeuron` constructor. -/
def BurstingNeuron.create (p : BurstingParams) : BurstingNeuron :=
  { p := p, v := p.vRest, burstVar := 0, tLastSpike := none, spikeCount := 0,
    burstRemaining := 0, burstTimer := 0 }

/-- Models `BurstingNeuron.step`.  Note that `refractoryMs` is never read:
the source method contains no refractory check. -/
def BurstingNeuron.step (n : BurstingNeuron) (inputCurrent dtMs tMs : ℚ) :
    BurstingNeuron × Bool :=
  let p := n.p
  let burstVar1 := n.burstVar + -n.burstVar / p.tauBurst * dtMs
  if 0 < n.burstRemaining then
    let timer1 := n.burstTimer - dtMs
    if timer1 ≤ 0 then
      ({ n with burstVar := burstVar1, burstRemaining := n.burstRemaining - 1,
                burstTimer := p.intraBurstInterval, tLastSpike := some tMs,
                spikeCount := n.spikeCount + 1, v := p.vReset }, true)
    else
      ({ n with burstVar := burstVar1, burstTimer := timer1 }, false)
  else
    let dv := (-(n.v - p.vRest) / p.tauMs + inputCurrent - burstVar1) * dtMs
    let v1 := n.v + dv
    if p.vThreshold ≤ v1 then
      ({ n with burstVar := burstVar1 + p.bBurst, v := p.vReset,
                tLastSpike := some tMs, spikeCount := n.spikeCount + 1,
                burstRemaining := p.burstSize - 1,
                burstTimer := p.intraBurstInterval }, true)
    else
      ({ n with burstVar := burstVar1, v := v1 }, false)

end NeuronsTs

namespace Part001

/-- Parameters of the trace-carrying `LIFNeuron` (`src/unnamed/part_001`),
with its constructor defaults. -/
structure LIFParams where
  tau_m : ℚ := 20
  v_rest : ℚ := -65
  v_thresh : ℚ := -50
  v_reset : ℚ := -70
  r_m : ℚ := 10
  t_ref : ℚ := 2
  tauTrace : ℚ := 20
deriving DecidableEq

/-- State of the trace-carrying `LIFNeuron` (`src/unnamed/part_001`).  Its
refractory mechanism is a countdown timer in accumulated `dt`, not a
comparison against the current time. -/
structure LIFNeuron where
  p : LIFParams
  v : ℚ
  refractoryTimer : ℚ
  spikeTimes : List ℚ
  tracePos : ℚ
  traceNeg : ℚ
deriving DecidableEq

/-- The constructor of the trace-carrying `LIFNeuron`. -/
def LIFNeuron.create (p : LIFParams) : LIFNeuron :=
  { p := p, v := p.v_rest, refractoryTimer := 0, spikeTimes := [],
    tracePos := 0, traceNeg := 0 }

/-- Models `LIFNeuron.step(current, dt, t)` of `part_001`. -/
def LIFNeuron.step (n : LIFNeuron) (current dt t : ℚ) : LIFNeuron × Bool :=
  let p := n.p
  let tracePos1 := n.tracePos - n.tracePos / p.tauTrace * dt
  let traceNeg1 := n.traceNeg - n.traceNeg / p.tauTrace * dt
  if 0 < n.refractoryTimer then
    ({ n with tracePos := tracePos1, traceNeg := traceNeg1,
              refractoryTimer := n.refractoryTimer - dt, v := p.v_reset }, false)
  else
    let dv := (-(n.v - p.v_rest) + p.r_m * current) / p.tau_m
    let v1 := n.v + dv * dt
    if p.v_thresh ≤ v1 then
      ({ n with tracePos := tracePos1 + 1, traceNeg := traceNeg1 + 1,
                v := p.v_reset, refractoryTimer := p.t_ref,
                spikeTimes := n.spikeTimes ++ [t] }, true)
    else
      ({ n with tracePos := tracePos1, traceNeg := traceNeg1, v := v1 }, false)

/-- Models `LIFNeuron.injectCurrent(amount)` of `part_001`. -/
def LIFNeuron.injectCurrent (n : LIFNeuron) (amount : ℚ) : LIFNeuron :=
  if n.refractoryTimer ≤ 0 then { n with v := n.v + amount } else n

/-- Models `LIFNeuron.reset` of `part_001`. -/
def LIFNeuron.reset (n : LIFNeuron) : LIFNeuron :=
  { n with v := n.p.v_rest, refractoryTimer := 0, spikeTimes := [],
           tracePos := 0, traceNeg := 0 }

end Part001

/-- Runs a neuron through a list of `(current, dt, t)` step calls, collecting
the times of the steps that reported a spike.  Generic over the neuron type
so it serves every neuron model of the repository. -/
def runSpikes {σ : Type} (step : σ → ℚ → ℚ → ℚ → σ × Bool) :
    σ → List (ℚ × ℚ × ℚ) → σ × List ℚ
  | s, [] => (s, [])
  | s, (c, dt, t) :: rest =>
    let (s1, sp) := step s c dt t
    let (s2, ts) := runSpikes step s1 rest
    (s2, if sp then t :: ts else ts)

namespace SynapsesTs

/-- Parameters of the pair-based `STDPSynapse` (`src/brain/synapses.ts`),
with its constructor defaults. -/
structure STDPParams where
  w : ℚ := 0.5
  wMin : ℚ := 0
  wMax : ℚ := 2
  aPlus : ℚ := 0.02
  aMinus : ℚ := 0.025
  tauPlusMs : ℚ := 20
  tauMinusMs : ℚ := 20
deriving DecidableEq

/-- State of the pair-based `STDPSynapse` (`src/brain/synapses.ts`).
`tPreLast`/`tPostLast` start at `-Infinity`, modelled as `none`. -/
structure STDPSynapse where
  params : STDPParams
  w : ℚ
  tPreLast : Option ℚ
  tPostLast : Option ℚ
deriving DecidableEq

/-- The `STDPSynapse` constructor. -/
def STDPSynapse.create (p : STDPParams) : STDPSynapse :=
  { params := p, w := p.w, tPreLast := none, tPostLast := none }

/-- Models `STDPSynapse.reset`. -/
def STDPSynapse.reset (s : STDPSynapse) : STDPSynapse :=
  { s with tPreLast := none, tPostLast := none }

/-- Models the private `STDPSynapse.clamp`. -/
def STDPSynapse.clamp (s : STDPSynapse) : STDPSynapse :=
  { s with w := clampQ s.params.wMin s.params.wMax s.w }

/-- Models `STDPSynapse.onPreSpike(tMs)`: pair-based LTD.  The guard
`Number.isFinite(dt)` fails exactly when `tPostLast` is `-Infinity`. -/
def STDPSynapse.onPreSpike (E : ℚ → ℚ) (s : STDPSynapse) (tMs : ℚ) :
    STDPSynapse :=
  let s1 :=
    match s.tPostLast with
    | some tp =>
      let dt := tMs - tp
      if 0 ≤ dt ∧ dt < 10000 then
        STDPSynapse.clamp
          { s with w := s.w + -s.params.aMinus * E (-dt / s.params.tauMinusMs) }
      else s
    | none => s
  { s1 with tPreLast := some tMs }

/-- Models `STDPSynapse.onPostSpike(tMs)`: pair-based LTP. -/
def STDPSynapse.onPostSpike (E : ℚ → ℚ) (s : STDPSynapse) (tMs : ℚ) :
    STDPSynapse :=
  let s1 :=
    match s.tPreLast with
    | some tp =>
      let dt := tMs - tp
      if 0 ≤ dt ∧ dt < 10000 then
        STDPSynapse.clamp
          { s with w := s.w + s.params.aPlus * E (-dt / s.params.tauPlusMs) }
      else s
    | none => s
  { s1 with tPostLast := some tMs }

/-- One call of the public `STDPSynapse` interface. -/
inductive STDPOp where
  | pre (t : ℚ)
  | post (t : ℚ)
  | reset
deriving DecidableEq

/-- Applies one `STDPOp` to a pair-based synapse. -/
def STDPSynapse.applyOp (E : ℚ → ℚ) (s : STDPSynapse) : STDPOp → STDPSynapse
  | .pre t => s.onPreSpike E t
  | .post t => s.onPostSpike E t
  | .reset => s.reset

/-- Applies a finite call sequence to a pair-based synapse. -/
def STDPSynapse.applyOps (E : ℚ → ℚ) (s : STDPSynapse) (ops : List STDPOp) :
    STDPSynapse :=
  ops.foldl (STDPSynapse.applyOp E) s

end SynapsesTs

namespace StdpTrace

/-- State of the trace-based `STDPSynapse` (second class of
`src/brain/synapses.ts`), which reads the STDP traces of its `part_001`
pre/post neurons.  The neuron references are passed to `step` explicitly. -/
structure STDPSynapse where
  weight : ℚ
  wMin : ℚ
  wMax : ℚ
  aPlusInit : ℚ
  aMinusInit : ℚ
  tauPlus : ℚ
  tauMinus : ℚ
  pspAmplitude : ℚ
  weightHistory : List ℚ
deriving DecidableEq

/-- Optional constructor arguments of the trace-based `STDPSynapse`. -/
structure STDPOptions where
  weight : Option ℚ := none
  wMin : Option ℚ := none
  wMax : Option ℚ := none
  aPlus : Option ℚ := none
  aMinus : Option ℚ := none
  tauPlus : Option ℚ := none
  tauMinus : Option ℚ := none
  pspAmplitude : Option ℚ := none
deriving DecidableEq

/-- The trace-based `STDPSynapse` constructor with its `??` defaults. -/
def STDPSynapse.create (o : STDPOptions) : STDPSynapse :=
  let w := o.weight.getD 0.5
  { weight := w, wMin := o.wMin.getD 0, wMax := o.wMax.getD 1,
    aPlusInit := o.aPlus.getD 0.01, aMinusInit := o.aMinus.getD 0.0105,
    tauPlus := o.tauPlus.getD 20, tauMinus := o.tauMinus.getD 20,
    pspAmplitude := o.pspAmplitude.getD 15, weightHistory := [w] }

/-- Models `STDPSynapse.step(preSpike, postSpike, learning)`.  The synapse
transmits a PSP into its post neuron on a presynaptic spike and applies the
trace-based plasticity rule; the updated post neuron is returned alongside. -/
def STDPSynapse.step (syn : STDPSynapse) (pre post : Part001.LIFNeuron)
    (preSpike postSpike learning : Bool) : STDPSynapse × Part001.LIFNeuron :=
  let post1 := if preSpike then
      post.injectCurrent (syn.weight * syn.pspAmplitude) else post
  let wLtd := clampQ syn.wMin syn.wMax (syn.weight + -syn.aMinusInit * post.traceNeg)
  let syn1 := if preSpike ∧ learning then { syn with weight := wLtd } else syn
  let wLtp := clampQ syn1.wMin syn1.wMax (syn1.weight + syn1.aPlusInit * pre.tracePos)
  let syn2 := if postSpike ∧ learning then { syn1 with weight := wLtp } else syn1
  ({ syn2 with weightHistory := syn2.weightHistory ++ [syn2.weight] }, post1)

/-- Models `STDPSynapse.reset`. -/
def STDPSynapse.reset (s : STDPSynapse) : STDPSynapse :=
  { s with weightHistory := [s.weight] }

/-- Models `STDPSynapse.resetFull(initialWeight)`. -/
def STDPSynapse.resetFull (s : STDPSynapse) (initialWeight : ℚ) : STDPSynapse :=
  { s with weight := initialWeight, weightHistory := [initialWeight] }

end StdpTrace

namespace HomeostaticStdpTs

/-- Parameters of `HomeostaticSTDPSynapse`
(`src/brain/synapses/homeostatic_stdp.ts`), with its constructor defaults. -/
structure HomeostaticSTDPParams where
  w : ℚ := 0.5
  wMin : ℚ := 0.01
  wMax : ℚ := 2.0
  aPlus : ℚ := 0.01
  aMinus : ℚ := 0.012
  tauPlus : ℚ := 20
  tauMinus : ℚ := 20
  targetRate : ℚ := 5
  tauHomeo : ℚ := 500
  homeoStrength : ℚ := 0.001
  tauTracePre : ℚ := 20
  tauTracePost : ℚ := 20
deriving DecidableEq

/-- State of `HomeostaticSTDPSynapse`. -/
structure HomeostaticSTDPSynapse where
  p : HomeostaticSTDPParams
  w : ℚ
  tracePre : ℚ
  tracePost : ℚ
  homeoFactor : ℚ
  postSpikeHistory : List ℚ
deriving DecidableEq

/-- The `HomeostaticSTDPSynapse` constructor. -/
def HomeostaticSTDPSynapse.create (p : HomeostaticSTDPParams) :
    HomeostaticSTDPSynapse :=
  { p := p, w := p.w, tracePre := 0, tracePost := 0, homeoFactor := 1,
    postSpikeHistory := [] }

instance : Inhabited HomeostaticSTDPSynapse :=
  ⟨HomeostaticSTDPSynapse.create {}⟩

/-- Models `HomeostaticSTDPSynapse.reset`. -/
def HomeostaticSTDPSynapse.reset (s : HomeostaticSTDPSynapse) :
    HomeostaticSTDPSynapse :=
  { s with tracePre := 0, tracePost := 0, homeoFactor := 1,
           postSpikeHistory := [] }

/-- Models the private `HomeostaticSTDPSynapse.clamp`. -/
def HomeostaticSTDPSynapse.clamp (s : HomeostaticSTDPSynapse) :
    HomeostaticSTDPSynapse :=
  { s with w := clampQ s.p.wMin s.p.wMax s.w }

/-- Models `HomeostaticSTDPSynapse.decayTraces(dtMs)`. -/
def HomeostaticSTDPSynapse.decayTraces (E : ℚ → ℚ) (s : HomeostaticSTDPSynapse)
    (dtMs : ℚ) : HomeostaticSTDPSynapse :=
  { s with tracePre := s.tracePre * E (-dtMs / s.p.tauTracePre),
           tracePost := s.tracePost * E (-dtMs / s.p.tauTracePost) }

/-- Models `HomeostaticSTDPSynapse.updateHomeostasis(tMs)`. -/
def HomeostaticSTDPSynapse.updateHomeostasis (s : HomeostaticSTDPSynapse)
    (tMs : ℚ) : HomeostaticSTDPSynapse :=
  let hist := s.postSpikeHistory.filter (fun t => tMs - t < 1000)
  let currentRate : ℚ := hist.length
  let e := s.p.targetRate - currentRate
  { s with postSpikeHistory := hist,
           homeoFactor := clampQ 0.1 3.0 (s.homeoFactor + s.p.homeoStrength * e) }

/-- Models `HomeostaticSTDPSynapse.onPreSpike(_tMs)` (LTD scaled by the
homeostatic factor, then a `+1` bump of the presynaptic trace). -/
def HomeostaticSTDPSynapse.onPreSpike (s : HomeostaticSTDPSynapse) (_tMs : ℚ) :
    HomeostaticSTDPSynapse :=
  let s1 := HomeostaticSTDPSynapse.clamp
    { s with w := s.w + -s.p.aMinus * s.tracePost * s.homeoFactor }
  { s1 with tracePre := s1.tracePre + 1 }

/-- Models `HomeostaticSTDPSynapse.onPostSpike(tMs)` (LTP scaled by the
homeostatic factor, a `+1` bump of the postsynaptic trace, and a history
push). -/
def HomeostaticSTDPSynapse.onPostSpike (s : HomeostaticSTDPSynapse) (tMs : ℚ) :
    HomeostaticSTDPSynapse :=
  let s1 := HomeostaticSTDPSynapse.clamp
    { s with w := s.w + s.p.aPlus * s.tracePre * s.homeoFactor }
  { s1 with tracePost := s1.tracePost + 1,
            postSpikeHistory := s1.postSpikeHistory ++ [tMs] }

/-- Models the `effectiveWeight` getter. -/
def HomeostaticSTDPSynapse.effectiveWeight (s : HomeostaticSTDPSynapse) : ℚ :=
  s.w * s.homeoFactor

/-- One call of the public `HomeostaticSTDPSynapse` interface. -/
inductive HomeoOp where
  | pre (t : ℚ)
  | post (t : ℚ)
  | decay (dt : ℚ)
  | homeo (t : ℚ)
  | reset
deriving DecidableEq

/-- Applies one `HomeoOp` to a homeostatic synapse. -/
def HomeostaticSTDPSynapse.applyOp (E : ℚ → ℚ) (s : HomeostaticSTDPSynapse) :
    HomeoOp → HomeostaticSTDPSynapse
  | .pre t => s.onPreSpike t
  | .post t => s.onPostSpike t
  | .decay dt => s.decayTraces E dt
  | .homeo t => s.updateHomeostasis t
  | .reset => s.reset

/-- Applies a finite call sequence to a homeostatic synapse. -/
def HomeostaticSTDPSynapse.applyOps (E : ℚ → ℚ) (s : HomeostaticSTDPSynapse)
    (ops : List HomeoOp) : HomeostaticSTDPSynapse :=
  ops.foldl (HomeostaticSTDPSynapse.applyOp E) s

end HomeostaticStdpTs

namespace InhibitoryTs

/-- Parameters of `InhibitorySynapse` (`src/brain/synapses/inhibitory.ts`),
with its constructor defaults. -/
structure InhibitorySynapseParams where
  w : ℚ := 0.8
  wMin : ℚ := 0
  wMax : ℚ := 5.0
  tauDecay : ℚ := 5
  delayMs : ℚ := 0.5
deriving DecidableEq

/-- State of `InhibitorySynapse`. -/
structure InhibitorySynapse where
  p : InhibitorySynapseParams
  w : ℚ
  inhibitoryCurrent : ℚ
deriving DecidableEq

/-- The `InhibitorySynapse` constructor. -/
def InhibitorySynapse.create (p : InhibitorySynapseParams) : InhibitorySynapse :=
  { p := p, w := p.w, inhibitoryCurrent := 0 }

instance : Inhabited InhibitorySynapse := ⟨InhibitorySynapse.create {}⟩

/-- Models `InhibitorySynapse.reset`. -/
def InhibitorySynapse.reset (s : InhibitorySynapse) : InhibitorySynapse :=
  { s with inhibitoryCurrent := 0 }

/-- Models `InhibitorySynapse.decay(dtMs)`. -/
def InhibitorySynapse.decay (E : ℚ → ℚ) (s : InhibitorySynapse) (dtMs : ℚ) :
    InhibitorySynapse :=
  { s with inhibitoryCurrent := s.inhibitoryCurrent * E (-dtMs / s.p.tauDecay) }

/-- Models `InhibitorySynapse.onPreSpike()`. -/
def InhibitorySynapse.onPreSpike (s : InhibitorySynapse) : InhibitorySynapse :=
  { s with inhibitoryCurrent := s.inhibitoryCurrent + s.w }

/-- Models `InhibitorySynapse.getCurrent()` (the delivered contribution is the
negative of the stored current). -/
def InhibitorySynapse.getCurrent (s : InhibitorySynapse) : ℚ :=
  -s.inhibitoryCurrent

end InhibitoryTs

namespace RecurrentTs

/-- Parameters of `RecurrentSynapse` (`src/brain/synapses/recurrent.ts`),
with its constructor defaults. -/
structure RecurrentSynapseParams where
  w : ℚ := 0.3
  wMin : ℚ := 0
  wMax : ℚ := 1.5
  tauFacilitation : ℚ := 200
  tauDepression : ℚ := 500
  uFacilitation : ℚ := 0.2
  delayMs : ℚ := 1
deriving DecidableEq

/-- State of `RecurrentSynapse`; the delay buffer holds
`(arrival time, strength)` pairs. -/
structure RecurrentSynapse where
  p : RecurrentSynapseParams
  w : ℚ
  facilitation : ℚ
  depression : ℚ
  delayBuffer : List (ℚ × ℚ)
deriving DecidableEq

/-- The `RecurrentSynapse` constructor. -/
def RecurrentSynapse.create (p : RecurrentSynapseParams) : RecurrentSynapse :=
  { p := p, w := p.w, facilitation := p.uFacilitation, depression := 1,
    delayBuffer := [] }

instance : Inhabited RecurrentSynapse := ⟨RecurrentSynapse.create {}⟩

/-- Models `RecurrentSynapse.reset`. -/
def RecurrentSynapse.reset (s : RecurrentSynapse) : RecurrentSynapse :=
  { s with facilitation := s.p.uFacilitation, depression := 1,
           delayBuffer := [] }

/-- Models `RecurrentSynapse.decayVariables(dtMs)`. -/
def RecurrentSynapse.decayVariables (s : RecurrentSynapse) (dtMs : ℚ) :
    RecurrentSynapse :=
  { s with
    facilitation := s.facilitation +
      (s.p.uFacilitation - s.facilitation) / s.p.tauFacilitation * dtMs,
    depression := s.depression + (1 - s.depression) / s.p.tauDepression * dtMs }

/-- Models `RecurrentSynapse.onPreSpike(tMs)`: facilitation update, effective
strength `w * u * x` computed before depression is consumed, then a push of
`(tMs + delay, strength)` into the delay buffer. -/
def RecurrentSynapse.onPreSpike (s : RecurrentSynapse) (tMs : ℚ) :
    RecurrentSynapse :=
  let facilitation1 := s.facilitation + s.p.uFacilitation * (1 - s.facilitation)
  let effectiveW := s.w * facilitation1 * s.depression
  { s with facilitation := facilitation1,
           depression := s.depression * (1 - facilitation1),
           delayBuffer := s.delayBuffer ++ [(tMs + s.p.delayMs, effectiveW)] }

/-- Models `RecurrentSynapse.getCurrent(tMs)`: drains and sums the buffered
entries whose arrival time has passed, keeping the rest queued. -/
def RecurrentSynapse.getCurrent (s : RecurrentSynapse) (tMs : ℚ) :
    RecurrentSynapse × ℚ :=
  let arrived := s.delayBuffer.filter (fun item => item.1 ≤ tMs)
  let remaining := s.delayBuffer.filter (fun item => ¬ item.1 ≤ tMs)
  ({ s with delayBuffer := remaining },
   arrived.foldl (fun acc item => acc + item.2) 0)

end RecurrentTs

/-- Reads entry `m[i][j]` of a matrix stored as a list of rows.  Every call
site of the source indexes within the constructed bounds. -/
def matGet {α : Type} [Inhabited α] (m : List (List α)) (i j : ℕ) : α :=
  (m.getD i []).getD j default

namespace SpikingLayerTs

open NeuronsTs InhibitoryTs

/-- Constructor arguments of `SpikingLayer` (`src/brain/layers/spiking_layer.ts`). -/
structure SpikingLayerParams where
  size : ℕ
  neuronParams : AdaptiveLIFParams := {}
  inhibitionParams : InhibitorySynapseParams := {}
  enableInhibition : Bool := true
deriving DecidableEq

/-- State of `SpikingLayer`: a population of `AdaptiveLIFNeuron`s with an
all-to-all matrix of lateral inhibitory synapses (`[i][j]` inhibits `i → j`,
diagonal pinned to a zero-weight placeholder). -/
structure SpikingLayer where
  size : ℕ
  enableInhibition : Bool
  neurons : List AdaptiveLIFNeuron
  inhibitorySynapses : List (List InhibitorySynapse)
  spikeHistory : List (List Bool)
  totalSpikesPerNeuron : List ℕ
deriving DecidableEq

/-- Per-step output of `SpikingLayer.step`. -/
structure LayerState where
  spikes : List Bool
  voltages : List ℚ
  inhibitions : List ℚ
  totalSpikes : ℕ
deriving DecidableEq

/-- The `SpikingLayer` constructor. -/
def SpikingLayer.create (p : SpikingLayerParams) : SpikingLayer :=
  { size := p.size
    enableInhibition := p.enableInhibition
    neurons := (List.range p.size).map (fun _ => AdaptiveLIFNeuron.create p.neuronParams)
    inhibitorySynapses := (List.range p.size).map (fun i =>
      (List.range p.size).map (fun j =>
        if i = j then InhibitorySynapse.create { w := 0 }
        else InhibitorySynapse.create p.inhibitionParams))
    spikeHistory := []
    totalSpikesPerNeuron := List.replicate p.size 0 }

/-- Models `SpikingLayer.reset`. -/
def SpikingLayer.reset (L : SpikingLayer) : SpikingLayer :=
  { L with neurons := L.neurons.map NeuronsTs.AdaptiveLIFNeuron.reset
           inhibitorySynapses := L.inhibitorySynapses.map (·.map InhibitoryTs.InhibitorySynapse.reset)
           spikeHistory := []
           totalSpikesPerNeuron := L.totalSpikesPerNeuron.map (fun _ => 0) }

/-- Phase (1a) of `SpikingLayer.step`: under inhibition, each off-diagonal
`i→j` synapse is decayed exactly once while the inhibition sums are computed
(the source interleaves the decay of `[i][j]` with reading its current inside
the `j`/`i` loops; each entry is visited once, so decaying all off-diagonal
entries first computes the identical values). -/
def SpikingLayer.decayedMat (E : ℚ → ℚ) (L : SpikingLayer) (dtMs : ℚ) :
    List (List InhibitorySynapse) :=
  if L.enableInhibition then
    (List.range L.size).map (fun i => (List.range L.size).map (fun j =>
      if i = j then matGet L.inhibitorySynapses i j
      else (matGet L.inhibitorySynapses i j).decay E dtMs))
  else L.inhibitorySynapses

/-- Phase (1b) of `SpikingLayer.step`: neuron `j`'s inhibitory input is the
sum over `i ≠ j` of the decayed synapses' (negative) currents. -/
def SpikingLayer.inhibVec (E : ℚ → ℚ) (L : SpikingLayer) (dtMs : ℚ) :
    List ℚ :=
  if L.enableInhibition then
    (List.range L.size).map (fun j =>
      ((List.range L.size).map (fun i =>
        if i = j then 0
        else (matGet (SpikingLayer.decayedMat E L dtMs) i j).getCurrent)).sum)
  else List.replicate L.size 0

/-- Phase (2) of `SpikingLayer.step`: every neuron is stepped with
`inputCurrents[i] + inhibitions[i]`. -/
def SpikingLayer.steppedNeurons (E : ℚ → ℚ) (L : SpikingLayer)
    (inputCurrents : List ℚ) (dtMs tMs : ℚ) :
    List (AdaptiveLIFNeuron × Bool) :=
  (List.range L.size).map (fun i =>
    (L.neurons.getD i default).step
      (inputCurrents.getD i 0 + (SpikingLayer.inhibVec E L dtMs).getD i 0)
      dtMs tMs)

/-- Models `SpikingLayer.step(inputCurrents, dtMs, tMs)`.  The three phases of
the source are kept in order: (1) under inhibition, each off-diagonal synapse
`i→j` is decayed once and its (negative) current summed into neuron `j`'s
inhibitory input; (2) every neuron is stepped with
`inputCurrents[i] + inhibitions[i]`; (3) only then do this step's spikes
inject `w` into the outgoing off-diagonal synapses. -/
def SpikingLayer.step (E : ℚ → ℚ) (L : SpikingLayer) (inputCurrents : List ℚ)
    (dtMs tMs : ℚ) : SpikingLayer × LayerState :=
  let sz := L.size
  let stepped := SpikingLayer.steppedNeurons E L inputCurrents dtMs tMs
  let neurons1 := stepped.map (·.1)
  let spikes := stepped.map (·.2)
  let voltages := stepped.map (·.1.v)
  let mat2 := if L.enableInhibition then
      (List.range sz).map (fun i => (List.range sz).map (fun j =>
        if spikes.getD i false ∧ i ≠ j then
          (matGet (SpikingLayer.decayedMat E L dtMs) i j).onPreSpike
        else matGet (SpikingLayer.decayedMat E L dtMs) i j))
    else SpikingLayer.decayedMat E L dtMs
  let totals := (List.range sz).map (fun i =>
    L.totalSpikesPerNeuron.getD i 0 + if spikes.getD i false then 1 else 0)
  ({ L with neurons := neurons1, inhibitorySynapses := mat2,
            spikeHistory := L.spikeHistory ++ [spikes],
            totalSpikesPerNeuron := totals },
   { spikes := spikes, voltages := voltages,
     inhibitions := SpikingLayer.inhibVec E L dtMs,
     totalSpikes := (spikes.filter (· = true)).length })

/-- Models `SpikingLayer.getFiringRates(windowSteps, dtMs)` (spikes per
1000 ms over the trailing window of recorded steps). -/
def SpikingLayer.getFiringRates (L : SpikingLayer) (windowSteps : ℕ)
    (dtMs : ℚ) : List ℚ :=
  let start := L.spikeHistory.length - windowSteps
  let len := L.spikeHistory.length - start
  if len = 0 then List.replicate L.size 0
  else
    let window := L.spikeHistory.drop start
    let windowMs := (len : ℚ) * dtMs
    (List.range L.size).map (fun i =>
      (((window.filter (fun row => row.getD i false)).length : ℚ) / windowMs) * 1000)

end SpikingLayerTs

namespace RecurrentSnnTs

open NeuronsTs HomeostaticStdpTs RecurrentTs SpikingLayerTs

/-- A spike pattern: one scheduled input spike time per input neuron. -/
structure SpikePattern where
  name : String
  spikeTimes : List ℚ
deriving DecidableEq

/-- Constructor arguments of `RecurrentSNN`
(`src/brain/networks/recurrent_snn.ts`); `none` selects the `??` default. -/
structure RecurrentSNNParams where
  nInput : ℕ
  nHidden : ℕ
  nOutput : ℕ
  dtMs : Option ℚ := none
  hiddenThreshold : Option ℚ := none
  outputThreshold : Option ℚ := none
  initialW : Option ℚ := none
  wMax : Option ℚ := none
  aPlus : Option ℚ := none
  aMinus : Option ℚ := none
  targetRate : Option ℚ := none
  homeoStrength : Option ℚ := none
  inhibitionW : Option ℚ := none
  recurrentW : Option ℚ := none
  enableRecurrent : Option Bool := none

/-- State of `RecurrentSNN`: input neurons, hidden and output WTA layers,
homeostatic-STDP feedforward synapse matrices, and the hidden recurrent
matrix. -/
structure RecurrentSNN where
  nInput : ℕ
  nHidden : ℕ
  nOutput : ℕ
  dtMs : ℚ
  enableRecurrent : Bool
  inputNeurons : List AdaptiveLIFNeuron
  hiddenLayer : SpikingLayer
  outputLayer : SpikingLayer
  synapsesIH : List (List HomeostaticSTDPSynapse)
  synapsesHO : List (List HomeostaticSTDPSynapse)
  recurrentSynapses : List (List RecurrentSynapse)
  inputPulseCurrent : ℚ

/-- The `RecurrentSNN` constructor.  `rand k` models the `k`-th sequential
draw of `Math.random()`; the source draws once per input→hidden synapse in
row-major order, then once per hidden→output synapse in row-major order. -/
def RecurrentSNN.create (rand : ℕ → ℚ) (params : RecurrentSNNParams) :
    RecurrentSNN :=
  let nI := params.nInput
  let nH := params.nHidden
  let nO := params.nOutput
  let wIH := params.initialW.getD 0.4
  let wHO := params.initialW.getD 0.4
  { nInput := nI, nHidden := nH, nOutput := nO
    dtMs := params.dtMs.getD 1
    enableRecurrent := params.enableRecurrent.getD true
    inputNeurons := (List.range nI).map (fun _ =>
      AdaptiveLIFNeuron.create { tauMs := 10, vThreshold := 1, refractoryMs := 1, bAdapt := 0 })
    hiddenLayer := SpikingLayer.create
      { size := nH
        neuronParams := { tauMs := 20, vThreshold := params.hiddenThreshold.getD 0.8,
                          refractoryMs := 3, tauAdapt := 100, bAdapt := 0.03 }
        inhibitionParams := { w := params.inhibitionW.getD 0.6, tauDecay := 5 }
        enableInhibition := true }
    outputLayer := SpikingLayer.create
      { size := nO
        neuronParams := { tauMs := 20, vThreshold := params.outputThreshold.getD 0.7,
                          refractoryMs := 3, tauAdapt := 100, bAdapt := 0.02 }
        inhibitionParams := { w := params.inhibitionW.getD 0.8, tauDecay := 5 }
        enableInhibition := true }
    synapsesIH := (List.range nI).map (fun i => (List.range nH).map (fun h =>
      HomeostaticSTDPSynapse.create
        { w := wIH * (0.8 + rand (i * nH + h) * 0.4)
          wMax := params.wMax.getD 2.0
          aPlus := params.aPlus.getD 0.008
          aMinus := params.aMinus.getD 0.009
          targetRate := params.targetRate.getD 8
          homeoStrength := params.homeoStrength.getD 0.0005 }))
    synapsesHO := (List.range nH).map (fun h => (List.range nO).map (fun o =>
      HomeostaticSTDPSynapse.create
        { w := wHO * (0.8 + rand (nI * nH + h * nO + o) * 0.4)
          wMax := params.wMax.getD 2.0
          aPlus := params.aPlus.getD 0.008
          aMinus := params.aMinus.getD 0.009
          targetRate := params.targetRate.getD 5
          homeoStrength := params.homeoStrength.getD 0.0005 }))
    recurrentSynapses := (List.range nH).map (fun i => (List.range nH).map (fun j =>
      if i = j then RecurrentSynapse.create { w := 0 }
      else RecurrentSynapse.create { w := params.recurrentW.getD 0.1, delayMs := 2 }))
    inputPulseCurrent := 1.5 }

/-- Models `RecurrentSNN.resetState` (identical statement sequence to the
inline per-episode reset at the top of `RecurrentSNN.run`): every neuron and
every synapse's transient state is reset, weights are kept. -/
def RecurrentSNN.resetState (sn : RecurrentSNN) : RecurrentSNN :=
  { sn with
    inputNeurons := sn.inputNeurons.map NeuronsTs.AdaptiveLIFNeuron.reset
    hiddenLayer := sn.hiddenLayer.reset
    outputLayer := sn.outputLayer.reset
    synapsesIH := sn.synapsesIH.map (·.map HomeostaticStdpTs.HomeostaticSTDPSynapse.reset)
    synapsesHO := sn.synapsesHO.map (·.map HomeostaticStdpTs.HomeostaticSTDPSynapse.reset)
    recurrentSynapses := sn.recurrentSynapses.map (·.map RecurrentTs.RecurrentSynapse.reset) }

/-- The per-step record pushed by `RecurrentSNN.run` (one entry of each of
the ten time-series arrays). -/
structure StepRecord where
  time : ℚ
  inSpikes : List Bool
  hidSpikes : List Bool
  outSpikes : List Bool
  hidV : List ℚ
  outV : List ℚ
  ihW : List ℚ
  hoW : List ℚ
  hF : List ℚ
  rates : List ℚ
deriving DecidableEq

/-- One iteration of the simulation loop of `RecurrentSNN.run`, phases 1–12
in source order.  `s` is the loop index (`time = s * dtMs`). -/
def RecurrentSNN.runStep (E : ℚ → ℚ) (pattern : SpikePattern) (training : Bool)
    (sn : RecurrentSNN) (s : ℕ) : RecurrentSNN × StepRecord :=
  let dt := sn.dtMs
  let time := (s : ℚ) * dt
  -- 1. drive and step the input neurons
  let stepped := (List.range sn.nInput).map (fun i =>
    let current := match pattern.spikeTimes.get? i with
      | some st => if |time - st| < dt / 2 then sn.inputPulseCurrent else 0
      | none => 0
    (sn.inputNeurons.getD i default).step current dt time)
  let inputNeurons1 := stepped.map (·.1)
  let inSpikes := stepped.map (·.2)
  -- 2. decay traces on all feedforward synapses
  let ih1 := sn.synapsesIH.map (·.map (fun syn => syn.decayTraces E dt))
  let ho1 := sn.synapsesHO.map (·.map (fun syn => syn.decayTraces E dt))
  -- 3. pre-spikes on input→hidden synapses
  let ih2 := (List.range sn.nInput).map (fun i => (List.range sn.nHidden).map (fun h =>
    if inSpikes.getD i false then (matGet ih1 i h).onPreSpike time
    else matGet ih1 i h))
  -- 4. hidden input currents (feedforward + recurrent, draining delay buffers)
  let recProcessed : List (List (RecurrentSynapse × ℚ)) :=
    if sn.enableRecurrent then
      (List.range sn.nHidden).map (fun j => (List.range sn.nHidden).map (fun h =>
        if j = h then (matGet sn.recurrentSynapses j h, 0)
        else ((matGet sn.recurrentSynapses j h).decayVariables dt).getCurrent time))
    else sn.recurrentSynapses.map (·.map (fun syn => (syn, 0)))
  let rec1 := recProcessed.map (·.map (·.1))
  let hiddenCurrents := (List.range sn.nHidden).map (fun h =>
    ((List.range sn.nInput).map (fun i =>
      if inSpikes.getD i false then (matGet ih2 i h).w else 0)).sum
    + ((List.range sn.nHidden).map (fun j =>
      if j = h then 0 else (matGet recProcessed j h).2)).sum)
  -- 5. step the hidden layer
  let hidPair := sn.hiddenLayer.step E hiddenCurrents dt time
  let hidLayer1 := hidPair.1
  let hidState := hidPair.2
  -- 6. recurrent pre-spikes
  let rec2 := if sn.enableRecurrent then
      (List.range sn.nHidden).map (fun i => (List.range sn.nHidden).map (fun j =>
        if hidState.spikes.getD i false ∧ i ≠ j then (matGet rec1 i j).onPreSpike time
        else matGet rec1 i j))
    else rec1
  -- 7. STDP: hidden post-spikes update input→hidden synapses
  let ih3 := if training then
      (List.range sn.nInput).map (fun i => (List.range sn.nHidden).map (fun h =>
        if hidState.spikes.getD h false then (matGet ih2 i h).onPostSpike time
        else matGet ih2 i h))
    else ih2
  -- 8. pre-spikes on hidden→output synapses
  let ho2 := (List.range sn.nHidden).map (fun h => (List.range sn.nOutput).map (fun o =>
    if hidState.spikes.getD h false then (matGet ho1 h o).onPreSpike time
    else matGet ho1 h o))
  -- 9. output input currents
  let outputCurrents := (List.range sn.nOutput).map (fun o =>
    ((List.range sn.nHidden).map (fun h =>
      if hidState.spikes.getD h false then (matGet ho2 h o).w else 0)).sum)
  -- 10. step the output layer
  let outPair := sn.outputLayer.step E outputCurrents dt time
  let outLayer1 := outPair.1
  let outState := outPair.2
  -- 11. STDP: output post-spikes update hidden→output synapses
  let ho3 := if training then
      (List.range sn.nHidden).map (fun h => (List.range sn.nOutput).map (fun o =>
        if outState.spikes.getD o false then (matGet ho2 h o).onPostSpike time
        else matGet ho2 h o))
    else ho2
  -- 12. homeostasis update every 50 steps during training
  let ih4 := if training ∧ s % 50 = 0 then
      ih3.map (·.map (fun syn => syn.updateHomeostasis time)) else ih3
  let ho4 := if training ∧ s % 50 = 0 then
      ho3.map (·.map (fun syn => syn.updateHomeostasis time)) else ho3
  let sn1 := { sn with inputNeurons := inputNeurons1, hiddenLayer := hidLayer1,
                       outputLayer := outLayer1, synapsesIH := ih4,
                       synapsesHO := ho4, recurrentSynapses := rec2 }
  let ihW := ((List.range sn.nInput).map (fun i => (List.range sn.nHidden).map (fun h =>
    (matGet ih4 i h).w))).foldr (· ++ ·) []
  let hoW := ((List.range sn.nHidden).map (fun h => (List.range sn.nOutput).map (fun o =>
    (matGet ho4 h o).w))).foldr (· ++ ·) []
  let hF := ((List.range sn.nInput).map (fun i => (List.range sn.nHidden).map (fun h =>
    (matGet ih4 i h).homeoFactor))).foldr (· ++ ·) []
  (sn1,
   { time := time, inSpikes := inSpikes, hidSpikes := hidState.spikes,
     outSpikes := outState.spikes, hidV := hidState.voltages,
     outV := outState.voltages, ihW := ihW, hoW := hoW, hF := hF,
     rates := hidLayer1.getFiringRates 100 dt })

/-- Runs the simulation loop over a list of step indices, threading the
network state and collecting the per-step records. -/
def RecurrentSNN.runSteps (E : ℚ → ℚ) (pattern : SpikePattern) (training : Bool) :
    RecurrentSNN → List ℕ → RecurrentSNN × List StepRecord
  | sn, [] => (sn, [])
  | sn, s :: rest =>
    let p1 := RecurrentSNN.runStep E pattern training sn s
    let p2 := RecurrentSNN.runSteps E pattern training p1.1 rest
    (p2.1, p1.2 :: p2.2)

/-- The episode time series returned by `RecurrentSNN.run`. -/
structure TrainResult where
  t : List ℚ
  inputSpikes : List (List Bool)
  hiddenSpikes : List (List Bool)
  outputSpikes : List (List Bool)
  hiddenV : List (List ℚ)
  outputV : List (List ℚ)
  weightsIH : List (List ℚ)
  weightsHO : List (List ℚ)
  homeoFactors : List (List ℚ)
  firingRates : List (List ℚ)
deriving DecidableEq

/-- Models `RecurrentSNN.run(pattern, durationMs, training)`: per-episode
reset of transient state (weights kept), then
`Math.ceil(durationMs / dtMs) + 1` simulation steps. -/
def RecurrentSNN.run (E : ℚ → ℚ) (sn : RecurrentSNN) (pattern : SpikePattern)
    (durationMs : ℚ) (training : Bool) : RecurrentSNN × TrainResult :=
  let sn0 := sn.resetState
  let steps := (⌈durationMs / sn.dtMs⌉ + 1).toNat
  let out := RecurrentSNN.runSteps E pattern training sn0 (List.range steps)
  (out.1,
   { t := out.2.map (·.time)
     inputSpikes := out.2.map (·.inSpikes)
     hiddenSpikes := out.2.map (·.hidSpikes)
     outputSpikes := out.2.map (·.outSpikes)
     hiddenV := out.2.map (·.hidV)
     outputV := out.2.map (·.outV)
     weightsIH := out.2.map (·.ihW)
     weightsHO := out.2.map (·.hoW)
     homeoFactors := out.2.map (·.hF)
     firingRates := out.2.map (·.rates) })

/-- Models `RecurrentSNN.train` (an episode with `training = true`). -/
def RecurrentSNN.train (E : ℚ → ℚ) (sn : RecurrentSNN) (pattern : SpikePattern)
    (durationMs : ℚ) : RecurrentSNN × TrainResult :=
  RecurrentSNN.run E sn pattern durationMs true

/-- The summary returned by `RecurrentSNN.test`. -/
structure TestResult where
  patternName : String
  outputSpikes : List (List Bool)
  winnerNeuron : ℕ
  outputSpikeCounts : List ℕ
  confidence : ℚ
deriving DecidableEq

/-- Models `RecurrentSNN.test(pattern, durationMs)`: a `training = false`
episode, per-neuron output spike counts, `winner = counts.indexOf(max)` and
`confidence = max / total` (0 when no output spike).  The source computes the
maximum with `Math.max(...counts)`; for the nonempty count lists produced by
every call site this equals the fold below. -/
def RecurrentSNN.test (E : ℚ → ℚ) (sn : RecurrentSNN) (pattern : SpikePattern)
    (durationMs : ℚ) : RecurrentSNN × TestResult :=
  let out := RecurrentSNN.run E sn pattern durationMs false
  let counts := (List.range sn.nOutput).map (fun o =>
    (out.2.outputSpikes.filter (fun row => row.getD o false)).length)
  let maxCount := counts.foldr max 0
  let winner := counts.indexOf maxCount
  let total := counts.sum
  (out.1,
   { patternName := pattern.name, outputSpikes := out.2.outputSpikes,
     winnerNeuron := winner, outputSpikeCounts := counts,
     confidence := if 0 < total then (maxCount : ℚ) / (total : ℚ) else 0 })

/-- Models `RecurrentSNN.getWeights` (input→hidden and hidden→output weight
matrices). -/
def RecurrentSNN.getWeights (sn : RecurrentSNN) :
    List (List ℚ) × List (List ℚ) :=
  ((List.range sn.nInput).map (fun i => (List.range sn.nHidden).map (fun h =>
     (matGet sn.synapsesIH i h).w)),
   (List.range sn.nHidden).map (fun h => (List.range sn.nOutput).map (fun o =>
     (matGet sn.synapsesHO h o).w)))

/-- Models `RecurrentSNN.getHomeoFactors`. -/
def RecurrentSNN.getHomeoFactors (sn : RecurrentSNN) :
    List (List ℚ) × List (List ℚ) :=
  ((List.range sn.nInput).map (fun i => (List.range sn.nHidden).map (fun h =>
     (matGet sn.synapsesIH i h).homeoFactor)),
   (List.range sn.nHidden).map (fun h => (List.range sn.nOutput).map (fun o =>
     (matGet sn.synapsesHO h o).homeoFactor)))

/-- Models `generatePatterns(nInput)`: the five built-in spike patterns. -/
def generatePatterns (nInput : ℕ) : List SpikePattern :=
  [ { name := "Alpha",
      spikeTimes := (List.range nInput).map (fun i => (15 : ℚ) + (i : ℚ) * 5) },
    { name := "Beta",
      spikeTimes := (List.range nInput).map (fun i =>
        (15 : ℚ) + ((nInput - 1 - i : ℕ) : ℚ) * 5) },
    { name := "Gamma",
      spikeTimes := (List.range nInput).map (fun i =>
        (15 : ℚ) + if i % 2 = 0 then 0 else 15) },
    { name := "Delta",
      spikeTimes := (List.range nInput).map (fun i =>
        (15 : ℚ) + ((i / 2 : ℕ) : ℚ) * 5 * 2) },
    { name := "Epsilon",
      spikeTimes := (List.range nInput).map (fun i =>
        (15 : ℚ) + ((i * 3 % nInput : ℕ) : ℚ) * 5) } ]

end RecurrentSnnTs

namespace SimpleNetTs

open NeuronsTs SynapsesTs

/-- A two-input pattern of `src/unnamed/part_002`: one scheduled spike time
per input neuron. -/
structure SpikePattern where
  name : String
  pre1SpikeMs : ℚ
  pre2SpikeMs : ℚ
deriving DecidableEq

/-- The episode time series returned by `SimpleSTDPNetwork.run`. -/
structure RunResult where
  t : List ℚ
  pre1 : List Bool
  pre2 : List Bool
  post : List Bool
  vPost : List ℚ
  w1 : List ℚ
  w2 : List ℚ
deriving DecidableEq

/-- Constructor options of `SimpleSTDPNetwork` (`src/unnamed/part_002`). -/
structure SimpleOptions where
  dtMs : Option ℚ := none
  inputPulseCurrent : Option ℚ := none
  outThreshold : Option ℚ := none
  initialW1 : Option ℚ := none
  initialW2 : Option ℚ := none
deriving DecidableEq

/-- State of `SimpleSTDPNetwork`: two input LIF neurons, one output LIF
neuron, two pair-based STDP synapses. -/
structure SimpleSTDPNetwork where
  in1 : LIFNeuron
  in2 : LIFNeuron
  out : LIFNeuron
  syn1 : STDPSynapse
  syn2 : STDPSynapse
  dtMs : ℚ
  inputPulseCurrent : ℚ
deriving DecidableEq

/-- The `SimpleSTDPNetwork` constructor with its `??` defaults. -/
def SimpleSTDPNetwork.create (opts : SimpleOptions) : SimpleSTDPNetwork :=
  { in1 := LIFNeuron.create { tauMs := 10, vThreshold := 1, refractoryMs := 1 }
    in2 := LIFNeuron.create { tauMs := 10, vThreshold := 1, refractoryMs := 1 }
    out := LIFNeuron.create { tauMs := 20, vThreshold := opts.outThreshold.getD 1.0,
                              refractoryMs := 2 }
    syn1 := STDPSynapse.create { w := opts.initialW1.getD 0.6, wMin := 0, wMax := 2 }
    syn2 := STDPSynapse.create { w := opts.initialW2.getD 0.6, wMin := 0, wMax := 2 }
    dtMs := opts.dtMs.getD 1
    inputPulseCurrent := opts.inputPulseCurrent.getD 1.2 }

/-- One iteration of the simulation loop of `SimpleSTDPNetwork.run`. -/
def SimpleSTDPNetwork.runStep (E : ℚ → ℚ) (pattern : SpikePattern)
    (training : Bool) (net : SimpleSTDPNetwork) (s : ℕ) :
    SimpleSTDPNetwork × (ℚ × Bool × Bool × Bool × ℚ × ℚ × ℚ) :=
  let dt := net.dtMs
  let time := (s : ℚ) * dt
  let i1 := if |time - pattern.pre1SpikeMs| < dt / 2 then net.inputPulseCurrent else 0
  let i2 := if |time - pattern.pre2SpikeMs| < dt / 2 then net.inputPulseCurrent else 0
  let p1 := net.in1.step i1 dt time
  let p2 := net.in2.step i2 dt time
  let syn1a := if p1.2 then net.syn1.onPreSpike E time else net.syn1
  let syn2a := if p2.2 then net.syn2.onPreSpike E time else net.syn2
  let iPost := (if p1.2 then syn1a.w else 0) + (if p2.2 then syn2a.w else 0)
  let pO := net.out.step iPost dt time
  let syn1b := if training ∧ pO.2 then syn1a.onPostSpike E time else syn1a
  let syn2b := if training ∧ pO.2 then syn2a.onPostSpike E time else syn2a
  ({ net with in1 := p1.1, in2 := p2.1, out := pO.1, syn1 := syn1b, syn2 := syn2b },
   (time, p1.2, p2.2, pO.2, pO.1.v, syn1b.w, syn2b.w))

/-- Runs the `SimpleSTDPNetwork` loop over a list of step indices. -/
def SimpleSTDPNetwork.runSteps (E : ℚ → ℚ) (pattern : SpikePattern)
    (training : Bool) :
    SimpleSTDPNetwork → List ℕ →
    SimpleSTDPNetwork × List (ℚ × Bool × Bool × Bool × ℚ × ℚ × ℚ)
  | net, [] => (net, [])
  | net, s :: rest =>
    let p1 := SimpleSTDPNetwork.runStep E pattern training net s
    let p2 := SimpleSTDPNetwork.runSteps E pattern training p1.1 rest
    (p2.1, p1.2 :: p2.2)

/-- Models the private `SimpleSTDPNetwork.run(pattern, durationMs, training)`:
per-episode reset of neurons and synapse spike-time memory, then
`Math.ceil(durationMs / dtMs) + 1` steps. -/
def SimpleSTDPNetwork.run (E : ℚ → ℚ) (net : SimpleSTDPNetwork)
    (pattern : SpikePattern) (durationMs : ℚ) (training : Bool) :
    SimpleSTDPNetwork × RunResult :=
  let net0 := { net with in1 := net.in1.reset, in2 := net.in2.reset,
                         out := net.out.reset, syn1 := net.syn1.reset,
                         syn2 := net.syn2.reset }
  let steps := (⌈durationMs / net.dtMs⌉ + 1).toNat
  let out := SimpleSTDPNetwork.runSteps E pattern training net0 (List.range steps)
  (out.1,
   { t := out.2.map (·.1)
     pre1 := out.2.map (·.2.1)
     pre2 := out.2.map (·.2.2.1)
     post := out.2.map (·.2.2.2.1)
     vPost := out.2.map (·.2.2.2.2.1)
     w1 := out.2.map (·.2.2.2.2.2.1)
     w2 := out.2.map (·.2.2.2.2.2.2) })

/-- Models `SimpleSTDPNetwork.train`. -/
def SimpleSTDPNetwork.train (E : ℚ → ℚ) (net : SimpleSTDPNetwork)
    (pattern : SpikePattern) (durationMs : ℚ) : SimpleSTDPNetwork × RunResult :=
  SimpleSTDPNetwork.run E net pattern durationMs true

/-- Models `SimpleSTDPNetwork.test`. -/
def SimpleSTDPNetwork.test (E : ℚ → ℚ) (net : SimpleSTDPNetwork)
    (pattern : SpikePattern) (durationMs : ℚ) : SimpleSTDPNetwork × RunResult :=
  SimpleSTDPNetwork.run E net pattern durationMs false

/-- The constant `PATTERN_A` of `part_002`. -/
def PATTERN_A : SpikePattern := { name := "A", pre1SpikeMs := 20, pre2SpikeMs := 30 }

/-- The constant `PATTERN_B` of `part_002`. -/
def PATTERN_B : SpikePattern := { name := "B", pre1SpikeMs := 30, pre2SpikeMs := 20 }

end SimpleNetTs

namespace ExperimentTs

open RecurrentSnnTs

/-- One update of the seeded generator of `runExperiment` (`src/unnamed/
part_000`): `seedVal = (seedVal * 16807 + 0) % 2147483647`. -/
def lcgNext (s : ℕ) : ℕ := s * 16807 % 2147483647

/-- The seed value after `n` updates of the seeded generator. -/
def lcgIter (seed : ℕ) : ℕ → ℕ
  | 0 => seed
  | n + 1 => lcgNext (lcgIter seed n)

/-- The value returned by the `k`-th (0-based) call of `seededRandom`:
the generator updates its seed first, then returns `seedVal / 2147483647`. -/
def lcgStream (seed : ℕ) (k : ℕ) : ℚ :=
  (lcgIter seed (k + 1) : ℚ) / 2147483647

/-- The arguments of `runExperiment`. -/
structure ExperimentParams where
  nInput : ℕ
  nHidden : ℕ
  nOutput : ℕ
  epochs : ℕ
  durationMs : ℚ
  inhibitionW : ℚ
  recurrentW : ℚ
  enableRecurrent : Bool
  seed : ℕ

/-- One entry of `trainHistory`. -/
structure TrainHistoryEntry where
  epoch : ℕ
  patternName : String
  avgWeightIH : ℚ
  avgWeightHO : ℚ
  avgHomeoFactor : ℚ
  hiddenSpikes : ℕ
  outputSpikes : ℕ
deriving DecidableEq

/-- One entry of `wtaDynamics`. -/
structure WtaEntry where
  patternName : String
  hiddenSpikeCounts : List ℕ
  outputSpikeCounts : List ℕ
deriving DecidableEq

/-- The record returned by `runExperiment`. -/
structure ExperimentResult where
  trainHistory : List TrainHistoryEntry
  testResults : List TestResult
  finalWeightsIH : List (List ℚ)
  finalWeightsHO : List (List ℚ)
  finalHomeo : List (List ℚ)
  lastTrainDetail : List (String × TrainResult)
  wtaDynamics : List WtaEntry
  homeoOverEpochs : List (List ℚ)
  firingRateOverEpochs : List (List ℚ)

/-- `Map.set` on an insertion-ordered association list (the
`lastTrainDetail` map of `runExperiment`). -/
def setAssoc (m : List (String × TrainResult)) (k : String) (v : TrainResult) :
    List (String × TrainResult) :=
  if m.any (fun e => e.1 = k) then
    m.map (fun e => if e.1 = k then (k, v) else e)
  else m ++ [(k, v)]

/-- `Map.get` with a default (the source uses the non-null assertion `!` at a
key that is always present). -/
def getAssocD (m : List (String × TrainResult)) (k : String) (d : TrainResult) :
    TrainResult :=
  match m.find? (fun e => e.1 = k) with
  | some e => e.2
  | none => d

/-- Average of a number list, 0 when empty (`length > 0 ? sum/length : 0`). -/
def avgQ (l : List ℚ) : ℚ := if 0 < l.length then l.sum / (l.length : ℚ) else 0

/-- Total count of `true` entries of a boolean matrix. -/
def countTrue (m : List (List Bool)) : ℕ :=
  (m.map (fun row => (row.filter (· = true)).length)).sum

/-- `arr[arr.length - 1] || []`: the last row of a time-series matrix, `[]`
when the matrix is empty. -/
def lastRow (l : List (List ℚ)) : List ℚ := l.getD (l.length - 1) []

/-- State threaded through the training loop of `runExperiment`. -/
structure TrainLoopState where
  net : RecurrentSNN
  hist : List TrainHistoryEntry
  detail : List (String × TrainResult)
  homeoRows : List (List ℚ)
  rateRows : List (List ℚ)

/-- The body of the inner (per-pattern) training loop of `runExperiment`. -/
def trainPattern (E : ℚ → ℚ) (durationMs : ℚ) (epoch : ℕ)
    (st : RecurrentSNN × List TrainHistoryEntry × List (String × TrainResult))
    (pattern : SpikePattern) :
    RecurrentSNN × List TrainHistoryEntry × List (String × TrainResult) :=
  let out := RecurrentSNN.train E st.1 pattern durationMs
  let result := out.2
  let ihWeights := lastRow result.weightsIH
  let hoWeights := lastRow result.weightsHO
  let homeos := lastRow result.homeoFactors
  (out.1,
   st.2.1 ++ [{ epoch := epoch, patternName := pattern.name,
                avgWeightIH := avgQ ihWeights, avgWeightHO := avgQ hoWeights,
                avgHomeoFactor := avgQ homeos,
                hiddenSpikes := countTrue result.hiddenSpikes,
                outputSpikes := countTrue result.outputSpikes }],
   setAssoc st.2.2 pattern.name result)

/-- The body of the outer (per-epoch) training loop of `runExperiment`:
train on every pattern, then sample homeostatic factors and the hidden
firing rates of the last pattern's episode. -/
def trainEpoch (E : ℚ → ℚ) (durationMs : ℚ) (patterns : List SpikePattern)
    (st : TrainLoopState) (epoch : ℕ) : TrainLoopState :=
  let inner := patterns.foldl (trainPattern E durationMs epoch)
    (st.net, st.hist, st.detail)
  let net1 := inner.1
  let hfRow := ((List.range (min 3 net1.nInput)).map (fun i =>
    (List.range (min 3 net1.nHidden)).map (fun h =>
      (matGet net1.synapsesIH i h).homeoFactor))).foldr (· ++ ·) []
  let lastName := (patterns.getD (patterns.length - 1)
    { name := "", spikeTimes := [] }).name
  let lastResult := getAssocD inner.2.2 lastName
    { t := [], inputSpikes := [], hiddenSpikes := [], outputSpikes := [],
      hiddenV := [], outputV := [], weightsIH := [], weightsHO := [],
      homeoFactors := [], firingRates := [] }
  { net := net1, hist := inner.2.1, detail := inner.2.2,
    homeoRows := st.homeoRows ++ [hfRow],
    rateRows := st.rateRows ++ [lastRow lastResult.firingRates] }

/-- The body of the testing loop of `runExperiment`: `net.test`, then a
second `net.run` of the same pattern to count hidden spikes. -/
def testPattern (E : ℚ → ℚ) (durationMs : ℚ) (nHidden : ℕ)
    (st : RecurrentSNN × List TestResult × List WtaEntry)
    (pattern : SpikePattern) : RecurrentSNN × List TestResult × List WtaEntry :=
  let t1 := RecurrentSNN.test E st.1 pattern durationMs
  let t2 := RecurrentSNN.run E t1.1 pattern durationMs false
  let hiddenCounts := (List.range nHidden).map (fun n =>
    (t2.2.hiddenSpikes.filter (fun row => row.getD n false)).length)
  (t2.1, st.2.1 ++ [t1.2],
   st.2.2 ++ [{ patternName := pattern.name, hiddenSpikeCounts := hiddenCounts,
                outputSpikeCounts := t1.2.outputSpikeCounts }])

/-- Models `runExperiment` (`src/unnamed/part_000`).  The source saves the
ambient `Math.random`, installs the seeded generator for the duration of the
`RecurrentSNN` construction, and restores the ambient function afterwards;
no other part of the experiment samples randomness.  `ambientRandom` models
the ambient `Math.random`; the returned second component is the global
generator left installed after the call. -/
def runExperiment (E : ℚ → ℚ) (ambientRandom : ℕ → ℚ) (p : ExperimentParams) :
    ExperimentResult × (ℕ → ℚ) :=
  let net0 := RecurrentSNN.create (lcgStream p.seed)
    { nInput := p.nInput, nHidden := p.nHidden, nOutput := p.nOutput,
      inhibitionW := some p.inhibitionW, recurrentW := some p.recurrentW,
      enableRecurrent := some p.enableRecurrent,
      hiddenThreshold := some 0.7, outputThreshold := some 0.6,
      initialW := some 0.35, wMax := some 2.0,
      aPlus := some 0.012, aMinus := some 0.013,
      targetRate := some 6, homeoStrength := some 0.0008 }
  let patterns := generatePatterns p.nInput
  let trained := (List.range p.epochs).foldl (trainEpoch E p.durationMs patterns)
    { net := net0, hist := [], detail := [], homeoRows := [], rateRows := [] }
  let tested := patterns.foldl (testPattern E p.durationMs p.nHidden)
    (trained.net, [], [])
  let weights := tested.1.getWeights
  let homeoFactors := tested.1.getHomeoFactors
  ({ trainHistory := trained.hist
     testResults := tested.2.1
     finalWeightsIH := weights.1
     finalWeightsHO := weights.2
     finalHomeo := homeoFactors.1
     lastTrainDetail := trained.detail
     wtaDynamics := tested.2.2
     homeoOverEpochs := trained.homeoRows
     firingRateOverEpochs := trained.rateRows },
   ambientRandom)

end ExperimentTs

/-! ### Concrete fixtures for closed-instance theorems -/

/-- A concrete stand-in for `Math.exp` used by closed-instance theorems
(the theorems themselves quantify over the `E` parameter). -/
def expOne : ℚ → ℚ := fun _ => 1

/-- A tiny concrete `RecurrentSNN` (1 input, 1 hidden, 2 output neurons)
built from a constant random stream. -/
def tinyNet : RecurrentSnnTs.RecurrentSNN :=
  RecurrentSnnTs.RecurrentSNN.create (fun _ => 1/2)
    { nInput := 1, nHidden := 1, nOutput := 2 }

/-- A pattern whose only scheduled input spike lies outside a 0 ms episode. -/
def quietPattern : RecurrentSnnTs.SpikePattern :=
  { name := "Quiet", spikeTimes := [100] }

/-! ### Helper lemmas -/

theorem clampQ_lower (lo hi x : ℚ) : lo ≤ clampQ lo hi x :=
  le_max_left lo _

theorem clampQ_upper (lo hi x : ℚ) (h : lo ≤ hi) : clampQ lo hi x ≤ hi :=
  max_le h (min_le_left hi x)

namespace SynapsesTs

theorem applyOp_inv (E : ℚ → ℚ) (op : STDPOp) (s : STDPSynapse)
    (hp : s.params.wMin ≤ s.params.wMax)
    (h1 : s.params.wMin ≤ s.w) (h2 : s.w ≤ s.params.wMax) :
    (s.applyOp E op).params = s.params ∧
    s.params.wMin ≤ (s.applyOp E op).w ∧ (s.applyOp E op).w ≤ s.params.wMax := by
  cases op with
  | pre t =>
    cases htp : s.tPostLast with
    | none =>
      simp only [STDPSynapse.applyOp, STDPSynapse.onPreSpike, htp]
      exact ⟨trivial, h1, h2⟩
    | some tp =>
      simp only [STDPSynapse.applyOp, STDPSynapse.onPreSpike, htp,
                 STDPSynapse.clamp]
      split
      · exact ⟨rfl, clampQ_lower _ _ _, clampQ_upper _ _ _ hp⟩
      · exact ⟨rfl, h1, h2⟩
  | post t =>
    cases htp : s.tPreLast with
    | none =>
      simp only [STDPSynapse.applyOp, STDPSynapse.onPostSpike, htp]
      exact ⟨trivial, h1, h2⟩
    | some tp =>
      simp only [STDPSynapse.applyOp, STDPSynapse.onPostSpike, htp,
                 STDPSynapse.clamp]
      split
      · exact ⟨rfl, clampQ_lower _ _ _, clampQ_upper _ _ _ hp⟩
      · exact ⟨rfl, h1, h2⟩
  | reset => exact ⟨rfl, h1, h2⟩

theorem applyOps_inv (E : ℚ → ℚ) (ops : List STDPOp) :
    ∀ s : STDPSynapse, s.params.wMin ≤ s.params.wMax →
    s.params.wMin ≤ s.w → s.w ≤ s.params.wMax →
    (s.applyOps E ops).params = s.params ∧
    s.params.wMin ≤ (s.applyOps E ops).w ∧
    (s.applyOps E ops).w ≤ s.params.wMax := by
  induction ops with
  | nil => exact fun s _ h1 h2 => ⟨rfl, h1, h2⟩
  | cons op rest ih =>
    intro s hp h1 h2
    obtain ⟨hP, hw1, hw2⟩ := applyOp_inv E op s hp h1 h2
    have h3 : (s.applyOp E op).params.wMin ≤ (s.applyOp E op).params.wMax := by
      rw [hP]; exact hp
    have h4 : (s.applyOp E op).params.wMin ≤ (s.applyOp E op).w := by
      rw [hP]; exact hw1
    have h5 : (s.applyOp E op).w ≤ (s.applyOp E op).params.wMax := by
      rw [hP]; exact hw2
    obtain ⟨hP2, hw3, hw4⟩ := ih (s.applyOp E op) h3 h4 h5
    have hfold : s.applyOps E (op :: rest) = (s.applyOp E op).applyOps E rest := rfl
    rw [hfold]
    refine ⟨hP2.trans hP, ?_, ?_⟩
    · rw [← hP]; exact hw3
    · rw [← hP]; exact hw4

end SynapsesTs

namespace HomeostaticStdpTs

theorem applyOp_w_inv (E : ℚ → ℚ) (op : HomeoOp) (s : HomeostaticSTDPSynapse)
    (hp : s.p.wMin ≤ s.p.wMax)
    (h1 : s.p.wMin ≤ s.w) (h2 : s.w ≤ s.p.wMax) :
    (s.applyOp E op).p = s.p ∧
    s.p.wMin ≤ (s.applyOp E op).w ∧ (s.applyOp E op).w ≤ s.p.wMax := by
  cases op with
  | pre t => exact ⟨rfl, clampQ_lower _ _ _, clampQ_upper _ _ _ hp⟩
  | post t => exact ⟨rfl, clampQ_lower _ _ _, clampQ_upper _ _ _ hp⟩
  | decay dt => exact ⟨rfl, h1, h2⟩
  | homeo t => exact ⟨rfl, h1, h2⟩
  | reset => exact ⟨rfl, h1, h2⟩

theorem applyOps_w_inv (E : ℚ → ℚ) (ops : List HomeoOp) :
    ∀ s : HomeostaticSTDPSynapse, s.p.wMin ≤ s.p.wMax →
    s.p.wMin ≤ s.w → s.w ≤ s.p.wMax →
    (s.applyOps E ops).p = s.p ∧
    s.p.wMin ≤ (s.applyOps E ops).w ∧ (s.applyOps E ops).w ≤ s.p.wMax := by
  induction ops with
  | nil => exact fun s _ h1 h2 => ⟨rfl, h1, h2⟩
  | cons op rest ih =>
    intro s hp h1 h2
    obtain ⟨hP, hw1, hw2⟩ := applyOp_w_inv E op s hp h1 h2
    have h3 : (s.applyOp E op).p.wMin ≤ (s.applyOp E op).p.wMax := by
      rw [hP]; exact hp
    have h4 : (s.applyOp E op).p.wMin ≤ (s.applyOp E op).w := by rw [hP]; exact hw1
    have h5 : (s.applyOp E op).w ≤ (s.applyOp E op).p.wMax := by rw [hP]; exact hw2
    obtain ⟨hP2, hw3, hw4⟩ := ih (s.applyOp E op) h3 h4 h5
    have hfold : s.applyOps E (op :: rest) = (s.applyOp E op).applyOps E rest := rfl
    rw [hfold]
    refine ⟨hP2.trans hP, ?_, ?_⟩
    · rw [← hP]; exact hw3
    · rw [← hP]; exact hw4

theorem applyOp_factor_inv (E : ℚ → ℚ) (op : HomeoOp)
    (s : HomeostaticSTDPSynapse)
    (h3 : 0.1 ≤ s.homeoFactor) (h4 : s.homeoFactor ≤ 3.0) :
    0.1 ≤ (s.applyOp E op).homeoFactor ∧ (s.applyOp E op).homeoFactor ≤ 3.0 := by
  cases op with
  | pre t => exact ⟨h3, h4⟩
  | post t => exact ⟨h3, h4⟩
  | decay dt => exact ⟨h3, h4⟩
  | homeo t => exact ⟨clampQ_lower _ _ _, clampQ_upper _ _ _ (by norm_num)⟩
  | reset =>
    constructor
    · show (0.1 : ℚ) ≤ 1; norm_num
    · show (1 : ℚ) ≤ 3.0; norm_num

theorem applyOps_factor_inv (E : ℚ → ℚ) (ops : List HomeoOp) :
    ∀ s : HomeostaticSTDPSynapse, 0.1 ≤ s.homeoFactor → s.homeoFactor ≤ 3.0 →
    0.1 ≤ (s.applyOps E ops).homeoFactor ∧
    (s.applyOps E ops).homeoFactor ≤ 3.0 := by
  induction ops with
  | nil => exact fun s h3 h4 => ⟨h3, h4⟩
  | cons op rest ih =>
    intro s h3 h4
    obtain ⟨h5, h6⟩ := applyOp_factor_inv E op s h3 h4
    exact ih (s.applyOp E op) h5 h6

end HomeostaticStdpTs

/-! ### Claim theorems -/

/-- C1: for both STDP-family synapses (the pair-based `STDPSynapse` and
`HomeostaticSTDPSynapse`), constructed with `wMin ≤ wMax` and an initial
weight inside `[wMin, wMax]`, the stored weight stays inside `[wMin, wMax]`
after any finite sequence of public calls (`onPreSpike`, `onPostSpike`,
`decayTraces`, `updateHomeostasis`, `reset`): every additive weight update is
immediately clamped to these bounds. -/
theorem weights_stay_bounded (E : ℚ → ℚ)
    (p : SynapsesTs.STDPParams) (ops : List SynapsesTs.STDPOp)
    (q : HomeostaticStdpTs.HomeostaticSTDPParams)
    (hops : List HomeostaticStdpTs.HomeoOp)
    (hp : p.wMin ≤ p.wMax) (hpw1 : p.wMin ≤ p.w) (hpw2 : p.w ≤ p.wMax)
    (hq : q.wMin ≤ q.wMax) (hqw1 : q.wMin ≤ q.w) (hqw2 : q.w ≤ q.wMax) :
    (p.wMin ≤ ((SynapsesTs.STDPSynapse.create p).applyOps E ops).w ∧
      ((SynapsesTs.STDPSynapse.create p).applyOps E ops).w ≤ p.wMax) ∧
    (q.wMin ≤ ((HomeostaticStdpTs.HomeostaticSTDPSynapse.create q).applyOps E hops).w ∧
      ((HomeostaticStdpTs.HomeostaticSTDPSynapse.create q).applyOps E hops).w ≤ q.wMax) :=
  ⟨(SynapsesTs.applyOps_inv E ops (SynapsesTs.STDPSynapse.create p) hp hpw1 hpw2).2,
   (HomeostaticStdpTs.applyOps_w_inv E hops
     (HomeostaticStdpTs.HomeostaticSTDPSynapse.create q) hq hqw1 hqw2).2⟩

/-- Witness for C1 at the default parameter sets and a concrete call
sequence. -/
theorem weights_stay_bounded_witness :
    (({} : SynapsesTs.STDPParams).wMin ≤
        ((SynapsesTs.STDPSynapse.create {}).applyOps (fun _ => 1/2)
          [.pre 0, .post 5, .pre 7, .reset, .post 9]).w ∧
      ((SynapsesTs.STDPSynapse.create {}).applyOps (fun _ => 1/2)
        [.pre 0, .post 5, .pre 7, .reset, .post 9]).w ≤
        ({} : SynapsesTs.STDPParams).wMax) ∧
    (({} : HomeostaticStdpTs.HomeostaticSTDPParams).wMin ≤
        ((HomeostaticStdpTs.HomeostaticSTDPSynapse.create {}).applyOps
          (fun _ => 1/2) [.pre 0, .decay 1, .post 5, .homeo 50, .pre 7, .reset]).w ∧
      ((HomeostaticStdpTs.HomeostaticSTDPSynapse.create {}).applyOps
        (fun _ => 1/2) [.pre 0, .decay 1, .post 5, .homeo 50, .pre 7, .reset]).w ≤
        ({} : HomeostaticStdpTs.HomeostaticSTDPParams).wMax) :=
  weights_stay_bounded (fun _ => 1/2) {} [.pre 0, .post 5, .pre 7, .reset, .post 9]
    {} [.pre 0, .decay 1, .post 5, .homeo 50, .pre 7, .reset]
    (by with_unfolding_all decide) (by with_unfolding_all decide)
    (by with_unfolding_all decide) (by with_unfolding_all decide)
    (by with_unfolding_all decide) (by with_unfolding_all decide)

/-- C5: `updateHomeostasis(t)` counts the postsynaptic spikes of the trailing
1000 ms window ending at `t`, adds `homeoStrength * (targetRate - rate)` to
the homeostatic factor and clamps it to `[0.1, 3.0]`; the factor multiplies
both the potentiation magnitude (`onPostSpike`) and the depression magnitude
(`onPreSpike`); and for every parameter set it stays inside `[0.1, 3.0]`
after any finite call sequence on a freshly constructed synapse. -/
theorem homeostasis_update_and_bounds (E : ℚ → ℚ)
    (q : HomeostaticStdpTs.HomeostaticSTDPParams)
    (ops : List HomeostaticStdpTs.HomeoOp)
    (s : HomeostaticStdpTs.HomeostaticSTDPSynapse) (t : ℚ) :
    (s.updateHomeostasis t).homeoFactor
      = clampQ 0.1 3.0 (s.homeoFactor + s.p.homeoStrength *
          (s.p.targetRate -
            ((s.postSpikeHistory.filter (fun u => t - u < 1000)).length : ℚ))) ∧
    (s.onPostSpike t).w
      = clampQ s.p.wMin s.p.wMax (s.w + s.p.aPlus * s.tracePre * s.homeoFactor) ∧
    (s.onPreSpike t).w
      = clampQ s.p.wMin s.p.wMax (s.w + -s.p.aMinus * s.tracePost * s.homeoFactor) ∧
    (0.1 ≤ ((HomeostaticStdpTs.HomeostaticSTDPSynapse.create q).applyOps E ops).homeoFactor ∧
      ((HomeostaticStdpTs.HomeostaticSTDPSynapse.create q).applyOps E ops).homeoFactor ≤ 3.0) :=
  ⟨rfl, rfl, rfl,
   HomeostaticStdpTs.applyOps_factor_inv E ops
     (HomeostaticStdpTs.HomeostaticSTDPSynapse.create q)
     (by norm_num [HomeostaticStdpTs.HomeostaticSTDPSynapse.create])
     (by norm_num [HomeostaticStdpTs.HomeostaticSTDPSynapse.create])⟩

theorem runSpikes_cons {σ : Type} (step : σ → ℚ → ℚ → ℚ → σ × Bool) (s : σ)
    (c dt t : ℚ) (rest : List (ℚ × ℚ × ℚ)) :
    runSpikes step s ((c, dt, t) :: rest) =
      ((runSpikes step (step s c dt t).1 rest).1,
       if (step s c dt t).2 then t :: (runSpikes step (step s c dt t).1 rest).2
       else (runSpikes step (step s c dt t).1 rest).2) := rfl

theorem runSpikes_inv {σ : Type} (step : σ → ℚ → ℚ → ℚ → σ × Bool)
    (last : σ → Option ℚ) (refr : σ → ℚ)
    (H1 : ∀ s c dt t ts, (step s c dt t).2 = true → last s = some ts →
      refr s ≤ t - ts)
    (H2 : ∀ s c dt t, last (step s c dt t).1 =
      if (step s c dt t).2 then some t else last s)
    (H4 : ∀ s c dt t, refr (step s c dt t).1 = refr s) :
    ∀ (inputs : List (ℚ × ℚ × ℚ)) (s : σ),
      (inputs.map (fun x => x.2.2)).Pairwise (· < ·) →
      (runSpikes step s inputs).2.Pairwise (fun a b => refr s ≤ b - a) ∧
      ∀ t ∈ (runSpikes step s inputs).2,
        (∀ ts, last s = some ts → refr s ≤ t - ts) ∧
        t ∈ inputs.map (fun x => x.2.2) := by
  intro inputs
  induction inputs with
  | nil => intro s _h; simp [runSpikes]
  | cons x rest ih =>
    obtain ⟨c, dt, t⟩ := x
    intro s hp
    rw [List.map_cons, List.pairwise_cons] at hp
    obtain ⟨hlt, hp2⟩ := hp
    have hrefr := H4 s c dt t
    obtain ⟨ihPW, ihMem⟩ := ih (step s c dt t).1 hp2
    rw [runSpikes_cons]
    cases hsp : (step s c dt t).2 with
    | false =>
      simp only [hsp, if_false, Bool.false_eq_true]
      have hlast := H2 s c dt t
      rw [hsp] at hlast
      simp only [if_false, Bool.false_eq_true] at hlast
      rw [hrefr] at ihPW
      refine ⟨ihPW, fun u hu => ?_⟩
      obtain ⟨hu1, hu2⟩ := ihMem u hu
      refine ⟨fun ts hts => ?_, List.mem_cons_of_mem _ hu2⟩
      have := hu1 ts (by rw [hlast]; exact hts)
      rw [hrefr] at this
      exact this
    | true =>
      simp only [hsp, if_true]
      have hlast := H2 s c dt t
      rw [hsp] at hlast
      simp only [if_true] at hlast
      rw [hrefr] at ihPW
      have hgate := fun ts hts => H1 s c dt t ts hsp hts
      constructor
      · rw [List.pairwise_cons]
        refine ⟨fun u hu => ?_, ihPW⟩
        obtain ⟨hu1, hu2⟩ := ihMem u hu
        have h1 : refr s ≤ u - t := by
          have := hu1 t hlast
          rw [hrefr] at this
          exact this
        exact h1
      · intro u hu
        rcases List.mem_cons.mp hu with rfl | hu'
        · exact ⟨hgate, List.mem_cons_self _ _⟩
        · obtain ⟨hu1, hu2⟩ := ihMem u hu'
          have htu : t < u := hlt u hu2
          refine ⟨fun ts hts => ?_, List.mem_cons_of_mem _ hu2⟩
          have hg := hgate ts hts
          have h1 : refr s ≤ u - t := by
            have := hu1 t hlast
            rw [hrefr] at this
            exact this
          linarith
      
namespace NeuronsTs

theorem lif_step_last (s : LIFNeuron) (c dt t : ℚ) :
    (s.step c dt t).1.tLastSpike =
      if (s.step c dt t).2 then some t else s.tLastSpike := by
  simp only [LIFNeuron.step]
  split
  · simp
  · split <;> simp

theorem lif_step_params (s : LIFNeuron) (c dt t : ℚ) :
    (s.step c dt t).1.params = s.params := by
  simp only [LIFNeuron.step]
  split
  · rfl
  · split <;> rfl

theorem lif_step_gate (s : LIFNeuron) (c dt t ts : ℚ)
    (hsp : (s.step c dt t).2 = true) (hts : s.tLastSpike = some ts) :
    s.params.refractoryMs ≤ t - ts := by
  by_contra hcon
  push_neg at hcon
  have hg : inRefr s.tLastSpike t s.params.refractoryMs = true := by
    simp [inRefr, hts, hcon]
  simp [LIFNeuron.step, hg] at hsp

theorem alif_step_last (s : AdaptiveLIFNeuron) (c dt t : ℚ) :
    (s.step c dt t).1.tLastSpike =
      if (s.step c dt t).2 then some t else s.tLastSpike := by
  simp only [AdaptiveLIFNeuron.step]
  split
  · simp
  · split <;> simp

theorem alif_step_params (s : AdaptiveLIFNeuron) (c dt t : ℚ) :
    (s.step c dt t).1.p = s.p := by
  simp only [AdaptiveLIFNeuron.step]
  split
  · rfl
  · split <;> rfl

theorem alif_step_gate (s : AdaptiveLIFNeuron) (c dt t ts : ℚ)
    (hsp : (s.step c dt t).2 = true) (hts : s.tLastSpike = some ts) :
    s.p.refractoryMs ≤ t - ts := by
  by_contra hcon
  push_neg at hcon
  have hg : inRefr s.tLastSpike t s.p.refractoryMs = true := by
    simp [inRefr, hts, hcon]
  simp [AdaptiveLIFNeuron.step, hg] at hsp

end NeuronsTs

/-- C3, amended: for `LIFNeuron` and `AdaptiveLIFNeuron` — the neuron models
whose refractory gate compares `currentTime` against the recorded last spike
time — any two spike-reporting steps of a call sequence with strictly
increasing `currentTime` are at least `refractoryMs` apart.  (The claim is
false for `BurstingNeuron`, whose `step` never reads its configured
`refractoryMs` and emits burst spikes at `intraBurstInterval`, and for the
countdown-timer `LIFNeuron` of `part_001`, whose refractoriness is counted in
accumulated `dt` rather than in `currentTime`; see the counterexample.) -/
theorem refractory_separation
    (pL : NeuronsTs.LIFParams) (pA : NeuronsTs.AdaptiveLIFParams)
    (inputs : List (ℚ × ℚ × ℚ))
    (ht : (inputs.map (fun x => x.2.2)).Pairwise (· < ·)) :
    (runSpikes NeuronsTs.LIFNeuron.step
      (NeuronsTs.LIFNeuron.create pL) inputs).2.Pairwise
      (fun a b => pL.refractoryMs ≤ b - a) ∧
    (runSpikes NeuronsTs.AdaptiveLIFNeuron.step
      (NeuronsTs.AdaptiveLIFNeuron.create pA) inputs).2.Pairwise
      (fun a b => pA.refractoryMs ≤ b - a) := by
  constructor
  · exact (runSpikes_inv NeuronsTs.LIFNeuron.step (fun n => n.tLastSpike)
      (fun n => n.params.refractoryMs)
      (fun s c dt t ts hsp hts => NeuronsTs.lif_step_gate s c dt t ts hsp hts)
      (fun s c dt t => NeuronsTs.lif_step_last s c dt t)
      (fun s c dt t => by simp only []; rw [NeuronsTs.lif_step_params])
      inputs (NeuronsTs.LIFNeuron.create pL) ht).1
  · exact (runSpikes_inv NeuronsTs.AdaptiveLIFNeuron.step (fun n => n.tLastSpike)
      (fun n => n.p.refractoryMs)
      (fun s c dt t ts hsp hts => NeuronsTs.alif_step_gate s c dt t ts hsp hts)
      (fun s c dt t => NeuronsTs.alif_step_last s c dt t)
      (fun s c dt t => by simp only []; rw [NeuronsTs.alif_step_params])
      inputs (NeuronsTs.AdaptiveLIFNeuron.create pA) ht).1

/-- Witness for the amended C3 at the default parameters and a concrete
three-step drive with strictly increasing times. -/
theorem refractory_separation_witness :
    (([((2 : ℚ), (1 : ℚ), (0 : ℚ)), (2, 1, 1), (2, 1, 5)].map
        (fun x => x.2.2)).Pairwise (· < ·)) ∧
    (runSpikes NeuronsTs.LIFNeuron.step
      (NeuronsTs.LIFNeuron.create {})
      [((2 : ℚ), (1 : ℚ), (0 : ℚ)), (2, 1, 1), (2, 1, 5)]).2.Pairwise
      (fun a b => ({} : NeuronsTs.LIFParams).refractoryMs ≤ b - a) ∧
    (runSpikes NeuronsTs.AdaptiveLIFNeuron.step
      (NeuronsTs.AdaptiveLIFNeuron.create {})
      [((2 : ℚ), (1 : ℚ), (0 : ℚ)), (2, 1, 1), (2, 1, 5)]).2.Pairwise
      (fun a b => ({} : NeuronsTs.AdaptiveLIFParams).refractoryMs ≤ b - a) :=
  ⟨by with_unfolding_all decide,
   (refractory_separation {} {} [((2 : ℚ), (1 : ℚ), (0 : ℚ)), (2, 1, 1), (2, 1, 5)]
     (by with_unfolding_all decide)).1,
   (refractory_separation {} {} [((2 : ℚ), (1 : ℚ), (0 : ℚ)), (2, 1, 1), (2, 1, 5)]
     (by with_unfolding_all decide)).2⟩

/-- C3 counterexample: the claim as stated fails on the code.  A
`BurstingNeuron` configured with `refractoryMs = 10` emits spikes 3 ms apart
(its `step` never reads `refractoryMs`; burst-mode spikes follow
`intraBurstInterval`), and the countdown-timer `LIFNeuron` of `part_001`
with its default `t_ref = 2` emits spikes 1.5 ms apart when a large `dt` is
passed while `currentTime` advances by less — both under strictly increasing
`currentTime`. -/
theorem refractory_claim_counterexample :
    (([((2 : ℚ), (1 : ℚ), (0 : ℚ)), (0, 1, 1), (0, 1, 2), (0, 1, 3)].map
        (fun x => x.2.2)).Pairwise (· < ·)) ∧
    ¬ (runSpikes NeuronsTs.BurstingNeuron.step
        (NeuronsTs.BurstingNeuron.create { refractoryMs := 10 })
        [((2 : ℚ), (1 : ℚ), (0 : ℚ)), (0, 1, 1), (0, 1, 2), (0, 1, 3)]).2.Pairwise
        (fun a b => (10 : ℚ) ≤ b - a) ∧
    (([((100 : ℚ), (1 : ℚ), (0 : ℚ)), (100, 5, 1), (100, 1, 3/2)].map
        (fun x => x.2.2)).Pairwise (· < ·)) ∧
    ¬ (runSpikes Part001.LIFNeuron.step (Part001.LIFNeuron.create {})
        [((100 : ℚ), (1 : ℚ), (0 : ℚ)), (100, 5, 1), (100, 1, 3/2)]).2.Pairwise
        (fun a b => ({} : Part001.LIFParams).t_ref ≤ b - a) := by
  with_unfolding_all decide

namespace Part001

theorem step_traces (n : LIFNeuron) (c dt t : ℚ) :
    (n.step c dt t).1.tracePos =
      (if (n.step c dt t).2 then n.tracePos - n.tracePos / n.p.tauTrace * dt + 1
       else n.tracePos - n.tracePos / n.p.tauTrace * dt) ∧
    (n.step c dt t).1.traceNeg =
      (if (n.step c dt t).2 then n.traceNeg - n.traceNeg / n.p.tauTrace * dt + 1
       else n.traceNeg - n.traceNeg / n.p.tauTrace * dt) := by
  simp only [LIFNeuron.step]
  split
  · simp
  · split <;> simp

end Part001

/-- C6, amended: in the trace-based plasticity code, all traces are bumped by
the fixed increment `+1` on their spike, and the weight changes are
`+aPlus * preTrace` on a postsynaptic spike and `-aMinus * postTrace` on a
presynaptic spike — except that `HomeostaticSTDPSynapse` additionally scales
both changes by its homeostatic factor.  The decay rule differs between the
two hosts of traces: the `part_001` neuron traces decay every step by the
Euler rule `trace -= trace/tau * dt`, while `HomeostaticSTDPSynapse.decayTraces`
decays its traces multiplicatively by the factor `Math.exp(-dt/tauTrace)`
(modelled by `E`), not by the Euler rule. -/
theorem trace_formulation (E : ℚ → ℚ)
    (s : HomeostaticStdpTs.HomeostaticSTDPSynapse) (dt t : ℚ)
    (n : Part001.LIFNeuron) (c : ℚ)
    (syn : StdpTrace.STDPSynapse) (pre post : Part001.LIFNeuron)
    (preSp postSp learning : Bool) :
    (s.decayTraces E dt).tracePre = s.tracePre * E (-dt / s.p.tauTracePre) ∧
    (s.decayTraces E dt).tracePost = s.tracePost * E (-dt / s.p.tauTracePost) ∧
    (s.onPreSpike t).tracePre = s.tracePre + 1 ∧
    (s.onPostSpike t).tracePost = s.tracePost + 1 ∧
    (s.onPostSpike t).w
      = clampQ s.p.wMin s.p.wMax (s.w + s.p.aPlus * s.tracePre * s.homeoFactor) ∧
    (s.onPreSpike t).w
      = clampQ s.p.wMin s.p.wMax (s.w + -s.p.aMinus * s.tracePost * s.homeoFactor) ∧
    ((n.step c dt t).1.tracePos =
      (if (n.step c dt t).2 then n.tracePos - n.tracePos / n.p.tauTrace * dt + 1
       else n.tracePos - n.tracePos / n.p.tauTrace * dt)) ∧
    ((n.step c dt t).1.traceNeg =
      (if (n.step c dt t).2 then n.traceNeg - n.traceNeg / n.p.tauTrace * dt + 1
       else n.traceNeg - n.traceNeg / n.p.tauTrace * dt)) ∧
    ((syn.step pre post preSp postSp learning).1.weight =
      (let w1 := if preSp ∧ learning then
          clampQ syn.wMin syn.wMax (syn.weight + -syn.aMinusInit * post.traceNeg)
        else syn.weight
       if postSp ∧ learning then
          clampQ syn.wMin syn.wMax (w1 + syn.aPlusInit * pre.tracePos)
       else w1)) := by
  refine ⟨rfl, rfl, rfl, rfl, rfl, rfl,
    (Part001.step_traces n c dt t).1, (Part001.step_traces n c dt t).2, ?_⟩
  simp only [StdpTrace.STDPSynapse.step]
  split_ifs <;> rfl

/-- C6 counterexample: the claim's unscaled update `Δw = +Aplus * preTrace`
is violated by `HomeostaticSTDPSynapse` as soon as the homeostatic factor
differs from 1.  With default parameters, one `updateHomeostasis(0)` moves
the factor to 1.005; after a presynaptic spike sets `tracePre = 1`, the
postsynaptic update adds `aPlus * tracePre * 1.005`, not `aPlus * tracePre`. -/
theorem trace_formulation_counterexample :
    ((((HomeostaticStdpTs.HomeostaticSTDPSynapse.create {}).updateHomeostasis 0).onPreSpike 0).onPostSpike 5).w ≠
      (((HomeostaticStdpTs.HomeostaticSTDPSynapse.create {}).updateHomeostasis 0).onPreSpike 0).w
      + ({} : HomeostaticStdpTs.HomeostaticSTDPParams).aPlus *
        (((HomeostaticStdpTs.HomeostaticSTDPSynapse.create {}).updateHomeostasis 0).onPreSpike 0).tracePre := by
  with_unfolding_all decide

theorem getD_mapQ {α β : Type} (f : α → β) (l : List α) (i : ℕ) (d : α) :
    (l.map f).getD i (f d) = f (l.getD i d) := by
  rcases Nat.lt_or_ge i l.length with h | h
  · rw [List.getD_eq_getElem l d h,
        List.getD_eq_getElem (l.map f) (f d) (by simpa using h)]
    simp
  · rw [List.getD_eq_default l d h,
        List.getD_eq_default (l.map f) (f d) (by simpa using h)]

theorem matGet_map {α : Type} [Inhabited α] (f : α → α)
    (hd : f default = default) (m : List (List α)) (i j : ℕ) :
    matGet (m.map (·.map f)) i j = f (matGet m i j) := by
  unfold matGet
  have h1 : (m.map (·.map f)).getD i [] = (m.getD i []).map f := by
    simpa using getD_mapQ (List.map f) m i []
  have h2 := getD_mapQ f (m.getD i []) j default
  rw [hd] at h2
  rw [h1]
  exact h2

theorem map_idem {α : Type} (f : α → α) (hf : ∀ x, f (f x) = f x) (l : List α) :
    (l.map f).map f = l.map f := by
  rw [List.map_map]
  exact List.map_congr_left (fun x _ => hf x)

theorem getD_const_zero (l : List ℕ) (i : ℕ) :
    (l.map (fun _ => 0)).getD i 0 = 0 := by
  rcases Nat.lt_or_ge i l.length with h | h
  · rw [List.getD_eq_getElem _ 0 (by simpa using h)]; simp
  · rw [List.getD_eq_default _ 0 (by simpa using h)]

namespace SpikingLayerTs

theorem reset_spec (L : SpikingLayer) :
    (∀ i, L.reset.neurons.getD i default
      = NeuronsTs.AdaptiveLIFNeuron.create ((L.neurons.getD i default).p)) ∧
    (∀ i j, matGet L.reset.inhibitorySynapses i j
      = { matGet L.inhibitorySynapses i j with inhibitoryCurrent := 0 }) ∧
    L.reset.spikeHistory = [] ∧
    (∀ i, L.reset.totalSpikesPerNeuron.getD i 0 = 0) ∧
    L.reset.reset = L.reset := by
  refine ⟨fun i => ?_, fun i j => ?_, rfl, fun i => ?_, ?_⟩
  · show (L.neurons.map NeuronsTs.AdaptiveLIFNeuron.reset).getD i default = _
    rw [show (default : NeuronsTs.AdaptiveLIFNeuron)
        = NeuronsTs.AdaptiveLIFNeuron.reset default from rfl,
      getD_mapQ NeuronsTs.AdaptiveLIFNeuron.reset L.neurons i default]
    rfl
  · show matGet (L.inhibitorySynapses.map (·.map InhibitoryTs.InhibitorySynapse.reset)) i j = _
    rw [matGet_map InhibitoryTs.InhibitorySynapse.reset rfl]
    rfl
  · exact getD_const_zero _ _
  · show SpikingLayer.reset (SpikingLayer.reset L) = SpikingLayer.reset L
    unfold SpikingLayer.reset
    congr 1
    · show (L.neurons.map NeuronsTs.AdaptiveLIFNeuron.reset).map
          NeuronsTs.AdaptiveLIFNeuron.reset
        = L.neurons.map NeuronsTs.AdaptiveLIFNeuron.reset
      exact map_idem NeuronsTs.AdaptiveLIFNeuron.reset (fun x => rfl) L.neurons
    · show (L.inhibitorySynapses.map (·.map InhibitoryTs.InhibitorySynapse.reset)).map
          (·.map InhibitoryTs.InhibitorySynapse.reset)
        = L.inhibitorySynapses.map (·.map InhibitoryTs.InhibitorySynapse.reset)
      exact map_idem (·.map InhibitoryTs.InhibitorySynapse.reset)
        (fun x => map_idem InhibitoryTs.InhibitorySynapse.reset (fun y => rfl) x)
        L.inhibitorySynapses
    · show (L.totalSpikesPerNeuron.map (fun _ => 0)).map (fun _ => 0)
        = L.totalSpikesPerNeuron.map (fun _ => 0)
      exact map_idem (fun _ => 0) (fun x => rfl) L.totalSpikesPerNeuron

end SpikingLayerTs

namespace SpikingLayerTs

theorem reset_idem (L : SpikingLayer) : L.reset.reset = L.reset :=
  (reset_spec L).2.2.2.2

end SpikingLayerTs

namespace RecurrentSnnTs

theorem resetState_idem (sn : RecurrentSNN) :
    sn.resetState.resetState = sn.resetState := by
  unfold RecurrentSNN.resetState
  congr 1
  · show (sn.inputNeurons.map NeuronsTs.AdaptiveLIFNeuron.reset).map
        NeuronsTs.AdaptiveLIFNeuron.reset
      = sn.inputNeurons.map NeuronsTs.AdaptiveLIFNeuron.reset
    exact map_idem NeuronsTs.AdaptiveLIFNeuron.reset (fun x => rfl) sn.inputNeurons
  · exact SpikingLayerTs.reset_idem sn.hiddenLayer
  · exact SpikingLayerTs.reset_idem sn.outputLayer
  · show (sn.synapsesIH.map (·.map HomeostaticStdpTs.HomeostaticSTDPSynapse.reset)).map
        (·.map HomeostaticStdpTs.HomeostaticSTDPSynapse.reset)
      = sn.synapsesIH.map (·.map HomeostaticStdpTs.HomeostaticSTDPSynapse.reset)
    exact map_idem (·.map HomeostaticStdpTs.HomeostaticSTDPSynapse.reset)
      (fun x => map_idem HomeostaticStdpTs.HomeostaticSTDPSynapse.reset
        (fun y => rfl) x) sn.synapsesIH
  · show (sn.synapsesHO.map (·.map HomeostaticStdpTs.HomeostaticSTDPSynapse.reset)).map
        (·.map HomeostaticStdpTs.HomeostaticSTDPSynapse.reset)
      = sn.synapsesHO.map (·.map HomeostaticStdpTs.HomeostaticSTDPSynapse.reset)
    exact map_idem (·.map HomeostaticStdpTs.HomeostaticSTDPSynapse.reset)
      (fun x => map_idem HomeostaticStdpTs.HomeostaticSTDPSynapse.reset
        (fun y => rfl) x) sn.synapsesHO
  · show (sn.recurrentSynapses.map (·.map RecurrentTs.RecurrentSynapse.reset)).map
        (·.map RecurrentTs.RecurrentSynapse.reset)
      = sn.recurrentSynapses.map (·.map RecurrentTs.RecurrentSynapse.reset)
    exact map_idem (·.map RecurrentTs.RecurrentSynapse.reset)
      (fun x => map_idem RecurrentTs.RecurrentSynapse.reset
        (fun y => rfl) x) sn.recurrentSynapses

end RecurrentSnnTs

/-- C7: the per-episode reset (`resetState`, executed verbatim at the start
of every `RecurrentSNN.run`, training or testing) preserves every synapse
weight, restores every neuron's membrane state and every synapse's non-weight
transients (STDP traces, homeostatic factor, postsynaptic spike history,
inhibitory currents, recurrent facilitation/depression and delay buffers,
layer spike history and counts) to their constructor-initial values, is
idempotent, and `run` behaves identically from a state and from its reset. -/
theorem episode_reset_properties (sn : RecurrentSnnTs.RecurrentSNN)
    (E : ℚ → ℚ) (pattern : RecurrentSnnTs.SpikePattern) (dur : ℚ)
    (training : Bool) :
    sn.resetState.getWeights = sn.getWeights ∧
    (∀ i, sn.resetState.inputNeurons.getD i default
      = NeuronsTs.AdaptiveLIFNeuron.create ((sn.inputNeurons.getD i default).p)) ∧
    (∀ i, sn.resetState.hiddenLayer.neurons.getD i default
      = NeuronsTs.AdaptiveLIFNeuron.create
          ((sn.hiddenLayer.neurons.getD i default).p)) ∧
    (∀ i j, matGet sn.resetState.hiddenLayer.inhibitorySynapses i j
      = { matGet sn.hiddenLayer.inhibitorySynapses i j with
            inhibitoryCurrent := 0 }) ∧
    sn.resetState.hiddenLayer.spikeHistory = [] ∧
    (∀ i, sn.resetState.hiddenLayer.totalSpikesPerNeuron.getD i 0 = 0) ∧
    (∀ i, sn.resetState.outputLayer.neurons.getD i default
      = NeuronsTs.AdaptiveLIFNeuron.create
          ((sn.outputLayer.neurons.getD i default).p)) ∧
    (∀ i j, matGet sn.resetState.outputLayer.inhibitorySynapses i j
      = { matGet sn.outputLayer.inhibitorySynapses i j with
            inhibitoryCurrent := 0 }) ∧
    sn.resetState.outputLayer.spikeHistory = [] ∧
    (∀ i j, matGet sn.resetState.synapsesIH i j
      = { matGet sn.synapsesIH i j with
            tracePre := 0
            tracePost := 0
            homeoFactor := 1
            postSpikeHistory := [] }) ∧
    (∀ i j, matGet sn.resetState.synapsesHO i j
      = { matGet sn.synapsesHO i j with
            tracePre := 0
            tracePost := 0
            homeoFactor := 1
            postSpikeHistory := [] }) ∧
    (∀ i j, matGet sn.resetState.recurrentSynapses i j
      = { matGet sn.recurrentSynapses i j with
            facilitation := (matGet sn.recurrentSynapses i j).p.uFacilitation
            depression := 1
            delayBuffer := [] }) ∧
    sn.resetState.resetState = sn.resetState ∧
    RecurrentSnnTs.RecurrentSNN.run E sn pattern dur training
      = RecurrentSnnTs.RecurrentSNN.run E sn.resetState pattern dur training := by
  have hIH := fun i j => matGet_map
    HomeostaticStdpTs.HomeostaticSTDPSynapse.reset rfl sn.synapsesIH i j
  have hHO := fun i j => matGet_map
    HomeostaticStdpTs.HomeostaticSTDPSynapse.reset rfl sn.synapsesHO i j
  have hRec := fun i j => matGet_map
    RecurrentTs.RecurrentSynapse.reset rfl sn.recurrentSynapses i j
  refine ⟨?_, ?_, ?_, ?_, rfl, ?_, ?_, ?_, rfl, ?_, ?_, ?_, ?_, ?_⟩
  · unfold RecurrentSnnTs.RecurrentSNN.getWeights
    simp only [Prod.mk.injEq]
    constructor
    · refine List.map_congr_left (fun i _ => ?_)
      refine List.map_congr_left (fun h _ => ?_)
      show (matGet (sn.synapsesIH.map
        (List.map HomeostaticStdpTs.HomeostaticSTDPSynapse.reset)) i h).w
        = (matGet sn.synapsesIH i h).w
      rw [matGet_map HomeostaticStdpTs.HomeostaticSTDPSynapse.reset rfl]
      rfl
    · refine List.map_congr_left (fun h _ => ?_)
      refine List.map_congr_left (fun o _ => ?_)
      show (matGet (sn.synapsesHO.map
        (List.map HomeostaticStdpTs.HomeostaticSTDPSynapse.reset)) h o).w
        = (matGet sn.synapsesHO h o).w
      rw [matGet_map HomeostaticStdpTs.HomeostaticSTDPSynapse.reset rfl]
      rfl
  · intro i
    show (sn.inputNeurons.map NeuronsTs.AdaptiveLIFNeuron.reset).getD i default = _
    rw [show (default : NeuronsTs.AdaptiveLIFNeuron)
        = NeuronsTs.AdaptiveLIFNeuron.reset default from rfl,
      getD_mapQ NeuronsTs.AdaptiveLIFNeuron.reset sn.inputNeurons i default]
    rfl
  · exact (SpikingLayerTs.reset_spec sn.hiddenLayer).1
  · exact (SpikingLayerTs.reset_spec sn.hiddenLayer).2.1
  · exact (SpikingLayerTs.reset_spec sn.hiddenLayer).2.2.2.1
  · exact (SpikingLayerTs.reset_spec sn.outputLayer).1
  · exact (SpikingLayerTs.reset_spec sn.outputLayer).2.1
  · exact fun i j => hIH i j
  · exact fun i j => hHO i j
  · exact fun i j => hRec i j
  · exact RecurrentSnnTs.resetState_idem sn
  · show RecurrentSnnTs.RecurrentSNN.run E sn pattern dur training
      = RecurrentSnnTs.RecurrentSNN.run E sn.resetState pattern dur training
    unfold RecurrentSnnTs.RecurrentSNN.run
    rw [RecurrentSnnTs.resetState_idem sn]
    rfl

theorem le_foldr_max (l : List ℕ) : ∀ a ∈ l, a ≤ l.foldr max 0 := by
  induction l with
  | nil => simp
  | cons b t ih =>
    intro a ha
    rcases List.mem_cons.mp ha with rfl | ha'
    · exact le_max_left _ _
    · exact le_trans (ih a ha') (le_max_right _ _)

theorem foldr_max_mem (l : List ℕ) (h : l ≠ []) : l.foldr max 0 ∈ l := by
  induction l with
  | nil => exact absurd rfl h
  | cons b t ih =>
    rw [List.foldr_cons]
    by_cases ht : t = []
    · subst ht; simp
    · rcases le_total (t.foldr max 0) b with hle | hle
      · rw [max_eq_left hle]; exact List.mem_cons_self _ _
      · rw [max_eq_right hle]; exact List.mem_cons_of_mem _ (ih ht)

theorem foldr_max_zero (l : List ℕ) (h : ∀ a ∈ l, a = 0) : l.foldr max 0 = 0 := by
  induction l with
  | nil => rfl
  | cons b t ih =>
    rw [List.foldr_cons, h b (List.mem_cons_self _ _),
      ih (fun a ha => h a (List.mem_cons_of_mem _ ha))]
    rfl

theorem getD_indexOf (l : List ℕ) (a : ℕ) (h : a ∈ l) :
    l.getD (List.indexOf a l) 0 = a := by
  induction l with
  | nil => cases h
  | cons b t ih =>
    by_cases hb : b = a
    · subst hb; simp [List.indexOf_cons_self]
    · have ha : a ∈ t := by
        rcases List.mem_cons.mp h with rfl | ht
        · exact absurd rfl hb
        · exact ht
      rw [List.indexOf_cons_ne _ (by simpa using hb)]
      simpa using ih ha

theorem getD_lt_indexOf (l : List ℕ) (a k : ℕ) (hk : k < List.indexOf a l) :
    l.getD k 0 ≠ a := by
  induction l generalizing k with
  | nil => simp [List.indexOf_nil] at hk
  | cons b t ih =>
    by_cases hb : b = a
    · subst hb; rw [List.indexOf_cons_self] at hk; omega
    · rw [List.indexOf_cons_ne _ (by simpa using hb)] at hk
      cases k with
      | zero => simpa using hb
      | succ k => exact ih k (by omega)

theorem argmax_spec (counts : List ℕ) (h : counts ≠ []) :
    List.indexOf (counts.foldr max 0) counts < counts.length ∧
    counts.getD (List.indexOf (counts.foldr max 0) counts) 0
      = counts.foldr max 0 ∧
    (∀ o < counts.length,
      counts.getD o 0 ≤
        counts.getD (List.indexOf (counts.foldr max 0) counts) 0) ∧
    (∀ o < List.indexOf (counts.foldr max 0) counts,
      counts.getD o 0 <
        counts.getD (List.indexOf (counts.foldr max 0) counts) 0) := by
  have hmem := foldr_max_mem counts h
  have hlt : List.indexOf (counts.foldr max 0) counts < counts.length :=
    List.indexOf_lt_length.mpr hmem
  have hget := getD_indexOf counts (counts.foldr max 0) hmem
  refine ⟨hlt, hget, fun o ho => ?_, fun o ho => ?_⟩
  · rw [hget, List.getD_eq_getElem _ _ ho]
    exact le_foldr_max counts _ (List.getElem_mem _)
  · have hne := getD_lt_indexOf counts (counts.foldr max 0) o ho
    have hle : counts.getD o 0 ≤ counts.foldr max 0 := by
      have ho' : o < counts.length := lt_trans ho hlt
      rw [List.getD_eq_getElem _ _ ho']
      exact le_foldr_max counts _ (List.getElem_mem _)
    rw [hget]
    exact lt_of_le_of_ne hle hne

/-- C4: `RecurrentSNN.test(pattern, duration)` counts output spikes per
output neuron over the whole `training = false` episode; `winnerNeuron` is
the first index attaining the maximum count, so every other count is `≤` the
winner's and every index before the winner is strictly below it; and
`confidence` is the winner's count divided by the total output spike count,
0 when no output spike occurred. -/
theorem test_classification (E : ℚ → ℚ) (sn : RecurrentSnnTs.RecurrentSNN)
    (pattern : RecurrentSnnTs.SpikePattern) (dur : ℚ) (h : 0 < sn.nOutput) :
    (RecurrentSnnTs.RecurrentSNN.test E sn pattern dur).2.outputSpikes
      = (RecurrentSnnTs.RecurrentSNN.run E sn pattern dur false).2.outputSpikes ∧
    (RecurrentSnnTs.RecurrentSNN.test E sn pattern dur).2.outputSpikeCounts
      = (List.range sn.nOutput).map (fun o =>
          ((RecurrentSnnTs.RecurrentSNN.run E sn pattern dur false).2.outputSpikes.filter
            (fun row => row.getD o false)).length) ∧
    (RecurrentSnnTs.RecurrentSNN.test E sn pattern dur).2.winnerNeuron
      < sn.nOutput ∧
    (∀ o < sn.nOutput,
      (RecurrentSnnTs.RecurrentSNN.test E sn pattern dur).2.outputSpikeCounts.getD o 0
        ≤ (RecurrentSnnTs.RecurrentSNN.test E sn pattern dur).2.outputSpikeCounts.getD
            (RecurrentSnnTs.RecurrentSNN.test E sn pattern dur).2.winnerNeuron 0) ∧
    (∀ o < (RecurrentSnnTs.RecurrentSNN.test E sn pattern dur).2.winnerNeuron,
      (RecurrentSnnTs.RecurrentSNN.test E sn pattern dur).2.outputSpikeCounts.getD o 0
        < (RecurrentSnnTs.RecurrentSNN.test E sn pattern dur).2.outputSpikeCounts.getD
            (RecurrentSnnTs.RecurrentSNN.test E sn pattern dur).2.winnerNeuron 0) ∧
    (RecurrentSnnTs.RecurrentSNN.test E sn pattern dur).2.confidence
      = (if 0 < (RecurrentSnnTs.RecurrentSNN.test E sn pattern dur).2.outputSpikeCounts.sum
         then ((RecurrentSnnTs.RecurrentSNN.test E sn pattern dur).2.outputSpikeCounts.getD
                 (RecurrentSnnTs.RecurrentSNN.test E sn pattern dur).2.winnerNeuron 0 : ℚ)
              / ((RecurrentSnnTs.RecurrentSNN.test E sn pattern dur).2.outputSpikeCounts.sum : ℚ)
         else 0) := by
  set counts := (List.range sn.nOutput).map (fun o =>
    ((RecurrentSnnTs.RecurrentSNN.run E sn pattern dur false).2.outputSpikes.filter
      (fun row => row.getD o false)).length) with hcounts
  have hne : counts ≠ [] := by
    intro hc
    have := congrArg List.length hc
    simp [hcounts] at this
    omega
  obtain ⟨hlt, hget, hle, hstrict⟩ := argmax_spec counts hne
  have hlen : counts.length = sn.nOutput := by simp [hcounts]
  refine ⟨rfl, rfl, ?_, ?_, ?_, ?_⟩
  · show List.indexOf (counts.foldr max 0) counts < sn.nOutput
    rw [← hlen]; exact hlt
  · intro o ho
    exact hle o (by rw [hlen]; exact ho)
  · intro o ho
    exact hstrict o ho
  · show (if 0 < counts.sum then ((counts.foldr max 0 : ℕ) : ℚ) / (counts.sum : ℚ) else 0)
      = (if 0 < counts.sum
         then ((counts.getD (List.indexOf (counts.foldr max 0) counts) 0 : ℕ) : ℚ)
              / (counts.sum : ℚ)
         else 0)
    rw [hget]

/-- Witness for C4 at the tiny concrete network, the quiet pattern and a
0 ms episode. -/
theorem test_classification_witness :
    (RecurrentSnnTs.RecurrentSNN.test expOne tinyNet quietPattern 0).2.outputSpikes
      = (RecurrentSnnTs.RecurrentSNN.run expOne tinyNet quietPattern 0 false).2.outputSpikes ∧
    (RecurrentSnnTs.RecurrentSNN.test expOne tinyNet quietPattern 0).2.outputSpikeCounts
      = (List.range tinyNet.nOutput).map (fun o =>
          ((RecurrentSnnTs.RecurrentSNN.run expOne tinyNet quietPattern 0 false).2.outputSpikes.filter
            (fun row => row.getD o false)).length) ∧
    (RecurrentSnnTs.RecurrentSNN.test expOne tinyNet quietPattern 0).2.winnerNeuron
      < tinyNet.nOutput ∧
    (∀ o < tinyNet.nOutput,
      (RecurrentSnnTs.RecurrentSNN.test expOne tinyNet quietPattern 0).2.outputSpikeCounts.getD o 0
        ≤ (RecurrentSnnTs.RecurrentSNN.test expOne tinyNet quietPattern 0).2.outputSpikeCounts.getD
            (RecurrentSnnTs.RecurrentSNN.test expOne tinyNet quietPattern 0).2.winnerNeuron 0) ∧
    (∀ o < (RecurrentSnnTs.RecurrentSNN.test expOne tinyNet quietPattern 0).2.winnerNeuron,
      (RecurrentSnnTs.RecurrentSNN.test expOne tinyNet quietPattern 0).2.outputSpikeCounts.getD o 0
        < (RecurrentSnnTs.RecurrentSNN.test expOne tinyNet quietPattern 0).2.outputSpikeCounts.getD
            (RecurrentSnnTs.RecurrentSNN.test expOne tinyNet quietPattern 0).2.winnerNeuron 0) ∧
    (RecurrentSnnTs.RecurrentSNN.test expOne tinyNet quietPattern 0).2.confidence
      = (if 0 < (RecurrentSnnTs.RecurrentSNN.test expOne tinyNet quietPattern 0).2.outputSpikeCounts.sum
         then ((RecurrentSnnTs.RecurrentSNN.test expOne tinyNet quietPattern 0).2.outputSpikeCounts.getD
                 (RecurrentSnnTs.RecurrentSNN.test expOne tinyNet quietPattern 0).2.winnerNeuron 0 : ℚ)
              / ((RecurrentSnnTs.RecurrentSNN.test expOne tinyNet quietPattern 0).2.outputSpikeCounts.sum : ℚ)
         else 0) :=
  test_classification expOne tinyNet quietPattern 0 (by with_unfolding_all decide)

theorem getD_false_of_all_false (row : List Bool)
    (h : ∀ b ∈ row, b = false) (o : ℕ) : row.getD o false = false := by
  rcases Nat.lt_or_ge o row.length with ho | ho
  · rw [List.getD_eq_getElem _ _ ho]
    exact h _ (List.getElem_mem _)
  · rw [List.getD_eq_default _ _ ho]

/-- C10: when no output neuron spikes during a test episode, every per-neuron
count is 0, so `Math.max` is 0, `indexOf` returns the first index, and
`RecurrentSNN.test` reports `winnerNeuron = 0` with `confidence = 0` — the
same winner index as an episode where output neuron 0 genuinely won. -/
theorem silent_test_reports_winner_zero (E : ℚ → ℚ)
    (sn : RecurrentSnnTs.RecurrentSNN) (pattern : RecurrentSnnTs.SpikePattern)
    (dur : ℚ) (h : 0 < sn.nOutput)
    (hsilent : ∀ row ∈ (RecurrentSnnTs.RecurrentSNN.run E sn pattern dur
      false).2.outputSpikes, ∀ b ∈ row, b = false) :
    (RecurrentSnnTs.RecurrentSNN.test E sn pattern dur).2.winnerNeuron = 0 ∧
    (RecurrentSnnTs.RecurrentSNN.test E sn pattern dur).2.confidence = 0 ∧
    ∀ c ∈ (RecurrentSnnTs.RecurrentSNN.test E sn pattern dur).2.outputSpikeCounts,
      c = 0 := by
  set R := (RecurrentSnnTs.RecurrentSNN.run E sn pattern dur false).2 with hR
  set counts := (List.range sn.nOutput).map (fun o =>
    (R.outputSpikes.filter (fun row => row.getD o false)).length) with hcounts
  have hzero : ∀ c ∈ counts, c = 0 := by
    intro c hc
    rw [hcounts] at hc
    obtain ⟨o, _, rfl⟩ := List.mem_map.mp hc
    have : R.outputSpikes.filter (fun row => row.getD o false) = [] := by
      rw [List.filter_eq_nil_iff]
      intro row hrow
      simp only [getD_false_of_all_false row (hsilent row hrow) o]
      exact Bool.false_ne_true
    rw [this]
    rfl
  have hmax : counts.foldr max 0 = 0 := foldr_max_zero counts hzero
  have hne : counts ≠ [] := by
    intro hc
    have := congrArg List.length hc
    simp [hcounts] at this
    omega
  obtain ⟨c0, t0, hct⟩ := List.exists_cons_of_ne_nil hne
  have hc0 : c0 = 0 := hzero c0 (by rw [hct]; exact List.mem_cons_self _ _)
  have hwinner : List.indexOf (counts.foldr max 0) counts = 0 := by
    rw [hmax, hct, hc0]
    exact List.indexOf_cons_self _ _
  have hsum : counts.sum = 0 := List.sum_eq_zero hzero
  refine ⟨hwinner, ?_, hzero⟩
  show (if 0 < counts.sum then ((counts.foldr max 0 : ℕ) : ℚ) / (counts.sum : ℚ)
        else 0) = 0
  rw [hsum]
  simp

/-- Witness for C10: the tiny network driven by the quiet pattern for 0 ms
produces no output spike, and `test` reports winner 0 with confidence 0. -/
theorem silent_test_reports_winner_zero_witness :
    (RecurrentSnnTs.RecurrentSNN.test expOne tinyNet quietPattern 0).2.winnerNeuron = 0 ∧
    (RecurrentSnnTs.RecurrentSNN.test expOne tinyNet quietPattern 0).2.confidence = 0 ∧
    ∀ c ∈ (RecurrentSnnTs.RecurrentSNN.test expOne tinyNet quietPattern 0).2.outputSpikeCounts,
      c = 0 :=
  silent_test_reports_winner_zero expOne tinyNet quietPattern 0
    (by with_unfolding_all decide) (by with_unfolding_all decide)

namespace RecurrentSnnTs

theorem runSteps_length (E : ℚ → ℚ) (pattern : SpikePattern) (training : Bool)
    (l : List ℕ) : ∀ sn : RecurrentSNN,
    (RecurrentSNN.runSteps E pattern training sn l).2.length = l.length := by
  induction l with
  | nil => intro sn; rfl
  | cons s rest ih =>
    intro sn
    show ((RecurrentSNN.runStep E pattern training sn s).2 ::
      (RecurrentSNN.runSteps E pattern training
        (RecurrentSNN.runStep E pattern training sn s).1 rest).2).length = _
    simp [ih]

end RecurrentSnnTs

namespace SimpleNetTs

theorem simpleRunSteps_length (E : ℚ → ℚ) (pattern : SpikePattern)
    (training : Bool) (l : List ℕ) : ∀ net : SimpleSTDPNetwork,
    (SimpleSTDPNetwork.runSteps E pattern training net l).2.length = l.length := by
  induction l with
  | nil => intro net; rfl
  | cons s rest ih =>
    intro net
    show ((SimpleSTDPNetwork.runStep E pattern training net s).2 ::
      (SimpleSTDPNetwork.runSteps E pattern training
        (SimpleSTDPNetwork.runStep E pattern training net s).1 rest).2).length = _
    simp [ih]

end SimpleNetTs

/-- C9, amended: degenerate patterns are NOT rejected — neither network
validates its input.  `RecurrentSNN.run` and `SimpleSTDPNetwork.run` always
execute `Math.ceil(duration/dt) + 1` simulation steps (at least one for any
nonnegative duration and positive step size, so a duration shorter than one
step still simulates) and return complete, equal-length time-series records;
a zero-channel pattern simply provides no input drive. -/
theorem degenerate_patterns_still_simulate (E : ℚ → ℚ)
    (sn : RecurrentSnnTs.RecurrentSNN) (pattern : RecurrentSnnTs.SpikePattern)
    (dur : ℚ) (training : Bool)
    (net2 : SimpleNetTs.SimpleSTDPNetwork) (pat2 : SimpleNetTs.SpikePattern)
    (hdt : 0 < sn.dtMs) (hdur : 0 ≤ dur) (hdt2 : 0 < net2.dtMs) :
    ((RecurrentSnnTs.RecurrentSNN.run E sn pattern dur training).2.t.length
        = (⌈dur / sn.dtMs⌉ + 1).toNat ∧
      1 ≤ (RecurrentSnnTs.RecurrentSNN.run E sn pattern dur training).2.t.length ∧
      (RecurrentSnnTs.RecurrentSNN.run E sn pattern dur training).2.inputSpikes.length
        = (RecurrentSnnTs.RecurrentSNN.run E sn pattern dur training).2.t.length ∧
      (RecurrentSnnTs.RecurrentSNN.run E sn pattern dur training).2.hiddenSpikes.length
        = (RecurrentSnnTs.RecurrentSNN.run E sn pattern dur training).2.t.length ∧
      (RecurrentSnnTs.RecurrentSNN.run E sn pattern dur training).2.outputSpikes.length
        = (RecurrentSnnTs.RecurrentSNN.run E sn pattern dur training).2.t.length ∧
      (RecurrentSnnTs.RecurrentSNN.run E sn pattern dur training).2.hiddenV.length
        = (RecurrentSnnTs.RecurrentSNN.run E sn pattern dur training).2.t.length ∧
      (RecurrentSnnTs.RecurrentSNN.run E sn pattern dur training).2.outputV.length
        = (RecurrentSnnTs.RecurrentSNN.run E sn pattern dur training).2.t.length ∧
      (RecurrentSnnTs.RecurrentSNN.run E sn pattern dur training).2.weightsIH.length
        = (RecurrentSnnTs.RecurrentSNN.run E sn pattern dur training).2.t.length ∧
      (RecurrentSnnTs.RecurrentSNN.run E sn pattern dur training).2.weightsHO.length
        = (RecurrentSnnTs.RecurrentSNN.run E sn pattern dur training).2.t.length ∧
      (RecurrentSnnTs.RecurrentSNN.run E sn pattern dur training).2.homeoFactors.length
        = (RecurrentSnnTs.RecurrentSNN.run E sn pattern dur training).2.t.length ∧
      (RecurrentSnnTs.RecurrentSNN.run E sn pattern dur training).2.firingRates.length
        = (RecurrentSnnTs.RecurrentSNN.run E sn pattern dur training).2.t.length) ∧
    ((SimpleNetTs.SimpleSTDPNetwork.run E net2 pat2 dur training).2.t.length
        = (⌈dur / net2.dtMs⌉ + 1).toNat ∧
      1 ≤ (SimpleNetTs.SimpleSTDPNetwork.run E net2 pat2 dur training).2.t.length ∧
      (SimpleNetTs.SimpleSTDPNetwork.run E net2 pat2 dur training).2.post.length
        = (SimpleNetTs.SimpleSTDPNetwork.run E net2 pat2 dur training).2.t.length ∧
      (SimpleNetTs.SimpleSTDPNetwork.run E net2 pat2 dur training).2.w1.length
        = (SimpleNetTs.SimpleSTDPNetwork.run E net2 pat2 dur training).2.t.length ∧
      (SimpleNetTs.SimpleSTDPNetwork.run E net2 pat2 dur training).2.w2.length
        = (SimpleNetTs.SimpleSTDPNetwork.run E net2 pat2 dur training).2.t.length) := by
  have hsn : ∀ l : List RecurrentSnnTs.StepRecord,
      (l.map (·.time)).length = l.length := fun l => List.length_map _ _
  have hceil1 : (0 : ℤ) ≤ ⌈dur / sn.dtMs⌉ :=
    Int.ceil_nonneg (div_nonneg hdur hdt.le)
  have hceil2 : (0 : ℤ) ≤ ⌈dur / net2.dtMs⌉ :=
    Int.ceil_nonneg (div_nonneg hdur hdt2.le)
  have hlen1 : (RecurrentSnnTs.RecurrentSNN.run E sn pattern dur training).2.t.length
      = (⌈dur / sn.dtMs⌉ + 1).toNat := by
    show ((RecurrentSnnTs.RecurrentSNN.runSteps E pattern training sn.resetState
      (List.range (⌈dur / sn.dtMs⌉ + 1).toNat)).2.map (·.time)).length = _
    rw [List.length_map, RecurrentSnnTs.runSteps_length, List.length_range]
  have hlen2 : (SimpleNetTs.SimpleSTDPNetwork.run E net2 pat2 dur training).2.t.length
      = (⌈dur / net2.dtMs⌉ + 1).toNat := by
    show ((SimpleNetTs.SimpleSTDPNetwork.runSteps E pat2 training _
      (List.range (⌈dur / net2.dtMs⌉ + 1).toNat)).2.map (·.1)).length = _
    rw [List.length_map, SimpleNetTs.simpleRunSteps_length, List.length_range]
  constructor
  · refine ⟨hlen1, ?_, ?_, ?_, ?_, ?_, ?_, ?_, ?_, ?_, ?_⟩
    · rw [hlen1]; omega
    all_goals
      simp only [RecurrentSnnTs.RecurrentSNN.run, List.length_map]
  · refine ⟨hlen2, ?_, ?_, ?_, ?_⟩
    · rw [hlen2]; omega
    all_goals
      simp only [SimpleNetTs.SimpleSTDPNetwork.run, List.length_map]

/-- Witness for the amended C9 at concrete degenerate inputs (a duration of
0 ms, shorter than one 1 ms step). -/
theorem degenerate_patterns_still_simulate_witness :
    ((RecurrentSnnTs.RecurrentSNN.run expOne tinyNet quietPattern 0 false).2.t.length
        = (⌈(0 : ℚ) / tinyNet.dtMs⌉ + 1).toNat ∧
      1 ≤ (RecurrentSnnTs.RecurrentSNN.run expOne tinyNet quietPattern 0 false).2.t.length ∧
      (RecurrentSnnTs.RecurrentSNN.run expOne tinyNet quietPattern 0 false).2.inputSpikes.length
        = (RecurrentSnnTs.RecurrentSNN.run expOne tinyNet quietPattern 0 false).2.t.length ∧
      (RecurrentSnnTs.RecurrentSNN.run expOne tinyNet quietPattern 0 false).2.hiddenSpikes.length
        = (RecurrentSnnTs.RecurrentSNN.run expOne tinyNet quietPattern 0 false).2.t.length ∧
      (RecurrentSnnTs.RecurrentSNN.run expOne tinyNet quietPattern 0 false).2.outputSpikes.length
        = (RecurrentSnnTs.RecurrentSNN.run expOne tinyNet quietPattern 0 false).2.t.length ∧
      (RecurrentSnnTs.RecurrentSNN.run expOne tinyNet quietPattern 0 false).2.hiddenV.length
        = (RecurrentSnnTs.RecurrentSNN.run expOne tinyNet quietPattern 0 false).2.t.length ∧
      (RecurrentSnnTs.RecurrentSNN.run expOne tinyNet quietPattern 0 false).2.outputV.length
        = (RecurrentSnnTs.RecurrentSNN.run expOne tinyNet quietPattern 0 false).2.t.length ∧
      (RecurrentSnnTs.RecurrentSNN.run expOne tinyNet quietPattern 0 false).2.weightsIH.length
        = (RecurrentSnnTs.RecurrentSNN.run expOne tinyNet quietPattern 0 false).2.t.length ∧
      (RecurrentSnnTs.RecurrentSNN.run expOne tinyNet quietPattern 0 false).2.weightsHO.length
        = (RecurrentSnnTs.RecurrentSNN.run expOne tinyNet quietPattern 0 false).2.t.length ∧
      (RecurrentSnnTs.RecurrentSNN.run expOne tinyNet quietPattern 0 false).2.homeoFactors.length
        = (RecurrentSnnTs.RecurrentSNN.run expOne tinyNet quietPattern 0 false).2.t.length ∧
      (RecurrentSnnTs.RecurrentSNN.run expOne tinyNet quietPattern 0 false).2.firingRates.length
        = (RecurrentSnnTs.RecurrentSNN.run expOne tinyNet quietPattern 0 false).2.t.length) ∧
    ((SimpleNetTs.SimpleSTDPNetwork.run expOne (SimpleNetTs.SimpleSTDPNetwork.create {})
        SimpleNetTs.PATTERN_A 0 false).2.t.length
        = (⌈(0 : ℚ) / (SimpleNetTs.SimpleSTDPNetwork.create {}).dtMs⌉ + 1).toNat ∧
      1 ≤ (SimpleNetTs.SimpleSTDPNetwork.run expOne (SimpleNetTs.SimpleSTDPNetwork.create {})
        SimpleNetTs.PATTERN_A 0 false).2.t.length ∧
      (SimpleNetTs.SimpleSTDPNetwork.run expOne (SimpleNetTs.SimpleSTDPNetwork.create {})
        SimpleNetTs.PATTERN_A 0 false).2.post.length
        = (SimpleNetTs.SimpleSTDPNetwork.run expOne (SimpleNetTs.SimpleSTDPNetwork.create {})
        SimpleNetTs.PATTERN_A 0 false).2.t.length ∧
      (SimpleNetTs.SimpleSTDPNetwork.run expOne (SimpleNetTs.SimpleSTDPNetwork.create {})
        SimpleNetTs.PATTERN_A 0 false).2.w1.length
        = (SimpleNetTs.SimpleSTDPNetwork.run expOne (SimpleNetTs.SimpleSTDPNetwork.create {})
        SimpleNetTs.PATTERN_A 0 false).2.t.length ∧
      (SimpleNetTs.SimpleSTDPNetwork.run expOne (SimpleNetTs.SimpleSTDPNetwork.create {})
        SimpleNetTs.PATTERN_A 0 false).2.w2.length
        = (SimpleNetTs.SimpleSTDPNetwork.run expOne (SimpleNetTs.SimpleSTDPNetwork.create {})
        SimpleNetTs.PATTERN_A 0 false).2.t.length) :=
  degenerate_patterns_still_simulate expOne tinyNet quietPattern 0 false
    (SimpleNetTs.SimpleSTDPNetwork.create {}) SimpleNetTs.PATTERN_A
    (by with_unfolding_all decide) (by with_unfolding_all decide)
    (by with_unfolding_all decide)

/-- C9 counterexample: a zero-input-channel pattern with a 0 ms duration is
not rejected by `RecurrentSNN.run` — one simulation step executes and a
complete one-entry record is returned — and likewise `SimpleSTDPNetwork.run`
with a duration shorter than one step executes a step and returns a record,
contradicting "rejected before any simulation step executes". -/
theorem degenerate_pattern_not_rejected :
    (RecurrentSnnTs.RecurrentSNN.run expOne
      (RecurrentSnnTs.RecurrentSNN.create (fun _ => 0)
        { nInput := 0, nHidden := 1, nOutput := 1 })
      { name := "Empty", spikeTimes := [] } 0 false).2.t = [0] ∧
    (SimpleNetTs.SimpleSTDPNetwork.run expOne
      (SimpleNetTs.SimpleSTDPNetwork.create {})
      SimpleNetTs.PATTERN_A 0 false).2.t = [0] := by
  with_unfolding_all decide

/-- C8: the experiment is a deterministic function of seed, patterns and
parameters.  `runExperiment` swaps the global `Math.random` for the explicit
seeded linear-congruential generator before constructing the network and
restores it afterwards, and nothing after construction samples randomness:
its result is therefore independent of the ambient generator (two runs with
identical seed and parameters — and any ambient randomness — produce the
identical `ExperimentResult`, time series and final weights included), the
ambient generator is restored on return, and the seeded generator itself is
the closed-form LCG `seed * 16807^n mod 2147483647`. -/
theorem experiment_determinism (E : ℚ → ℚ)
    (p : ExperimentTs.ExperimentParams) (amb amb2 : ℕ → ℚ) :
    (ExperimentTs.runExperiment E amb p).1
      = (ExperimentTs.runExperiment E amb2 p).1 ∧
    (ExperimentTs.runExperiment E amb p).2 = amb ∧
    (∀ n, ExperimentTs.lcgIter p.seed (n + 1)
      = p.seed * 16807 ^ (n + 1) % 2147483647) ∧
    (∀ k, ExperimentTs.lcgStream p.seed k
      = ((p.seed * 16807 ^ (k + 1) % 2147483647 : ℕ) : ℚ) / 2147483647) := by
  have hiter : ∀ n, ExperimentTs.lcgIter p.seed (n + 1)
      = p.seed * 16807 ^ (n + 1) % 2147483647 := by
    intro n
    induction n with
    | zero =>
      show ExperimentTs.lcgNext (ExperimentTs.lcgIter p.seed 0) = _
      unfold ExperimentTs.lcgIter ExperimentTs.lcgNext
      rw [pow_one]
    | succ k ih =>
      show ExperimentTs.lcgNext (ExperimentTs.lcgIter p.seed (k + 1)) = _
      rw [ih]
      unfold ExperimentTs.lcgNext
      rw [Nat.mod_mul_mod]
      ring_nf
  refine ⟨rfl, rfl, hiter, fun k => ?_⟩
  unfold ExperimentTs.lcgStream
  rw [hiter k]

theorem getD_range_map {α : Type} (f : ℕ → α) (n j : ℕ) (d : α) (h : j < n) :
    ((List.range n).map f).getD j d = f j := by
  rw [List.getD_eq_getElem _ _ (by simpa using h)]
  simp

theorem matGet_range {α : Type} [Inhabited α] (g : ℕ → ℕ → α) (n i j : ℕ)
    (hi : i < n) (hj : j < n) :
    matGet ((List.range n).map (fun a => (List.range n).map (fun b => g a b)))
      i j = g i j := by
  unfold matGet
  rw [getD_range_map _ n i [] hi, getD_range_map _ n j default hj]


namespace SpikingLayerTs

theorem decayedMat_offdiag (E : ℚ → ℚ) (L : SpikingLayer) (dt : ℚ) (i j : ℕ)
    (hE : L.enableInhibition = true) (hi : i < L.size) (hj : j < L.size)
    (hij : i ≠ j) :
    matGet (SpikingLayer.decayedMat E L dt) i j
      = (matGet L.inhibitorySynapses i j).decay E dt := by
  unfold SpikingLayer.decayedMat
  rw [if_pos hE, matGet_range _ L.size i j hi hj, if_neg hij]

theorem decayedMat_diag (E : ℚ → ℚ) (L : SpikingLayer) (dt : ℚ) (i : ℕ)
    (hE : L.enableInhibition = true) (hi : i < L.size) :
    matGet (SpikingLayer.decayedMat E L dt) i i
      = matGet L.inhibitorySynapses i i := by
  unfold SpikingLayer.decayedMat
  rw [if_pos hE, matGet_range _ L.size i i hi hi, if_pos rfl]

theorem inhibVec_getD (E : ℚ → ℚ) (L : SpikingLayer) (dt : ℚ) (j : ℕ)
    (hE : L.enableInhibition = true) (hj : j < L.size) :
    (SpikingLayer.inhibVec E L dt).getD j 0 =
      ((List.range L.size).map (fun i =>
        if i = j then 0
        else -((matGet L.inhibitorySynapses i j).inhibitoryCurrent
          * E (-dt / (matGet L.inhibitorySynapses i j).p.tauDecay)))).sum := by
  unfold SpikingLayer.inhibVec
  rw [if_pos hE, getD_range_map _ L.size j 0 hj]
  refine congrArg List.sum (List.map_congr_left fun i hi => ?_)
  have hi' := List.mem_range.mp hi
  by_cases hij : i = j
  · rw [if_pos hij, if_pos hij]
  · rw [if_neg hij, if_neg hij,
      decayedMat_offdiag E L dt i j hE hi' hj hij]
    rfl

theorem step_spikes_getD (E : ℚ → ℚ) (L : SpikingLayer) (I : List ℚ)
    (dt t : ℚ) (i : ℕ) (hi : i < L.size) :
    (SpikingLayer.step E L I dt t).2.spikes.getD i false =
      ((L.neurons.getD i default).step
        (I.getD i 0 + (SpikingLayer.inhibVec E L dt).getD i 0) dt t).2 := by
  show ((SpikingLayer.steppedNeurons E L I dt t).map (fun x => x.2)).getD i false = _
  unfold SpikingLayer.steppedNeurons
  rw [List.map_map, getD_range_map _ L.size i false hi]
  rfl

theorem step_neurons_getD (E : ℚ → ℚ) (L : SpikingLayer) (I : List ℚ)
    (dt t : ℚ) (i : ℕ) (hi : i < L.size) :
    (SpikingLayer.step E L I dt t).1.neurons.getD i default =
      ((L.neurons.getD i default).step
        (I.getD i 0 + (SpikingLayer.inhibVec E L dt).getD i 0) dt t).1 := by
  show ((SpikingLayer.steppedNeurons E L I dt t).map (fun x => x.1)).getD i default = _
  unfold SpikingLayer.steppedNeurons
  rw [List.map_map, getD_range_map _ L.size i default hi]
  rfl

theorem step_mat2 (E : ℚ → ℚ) (L : SpikingLayer) (I : List ℚ) (dt t : ℚ) :
    (SpikingLayer.step E L I dt t).1.inhibitorySynapses =
      (if L.enableInhibition then
        (List.range L.size).map (fun a => (List.range L.size).map (fun b =>
          if ((SpikingLayer.steppedNeurons E L I dt t).map (fun x => x.2)).getD a false
              ∧ a ≠ b then
            (matGet (SpikingLayer.decayedMat E L dt) a b).onPreSpike
          else matGet (SpikingLayer.decayedMat E L dt) a b))
      else SpikingLayer.decayedMat E L dt) := rfl

end SpikingLayerTs

/-- C2: in one `SpikingLayer.step` (with inhibition enabled), (a) every
neuron `j`'s inhibitory input is the sum, over the ordered pairs `(i, j)`
with `i ≠ j`, of the decayed — negated — currents that the `i→j` synapses
had accumulated from previous steps' spikes (an expression in the pre-step
state only, so a spike emitted at step `t` never changes any neuron's input
current at step `t`); (b) every neuron is stepped with
`inputCurrents[i] + inhibition[i]`; (c) only after all neurons have stepped
are the outgoing off-diagonal synapses of the neurons that spiked
incremented by `onPreSpike`, so this step's spikes only reach the synapse
state read by strictly later steps; and (d) diagonal (self) synapses are
never touched. -/
theorem layer_step_order (E : ℚ → ℚ) (L : SpikingLayerTs.SpikingLayer)
    (I : List ℚ) (dt t : ℚ) (hE : L.enableInhibition = true) :
    (∀ j < L.size,
      (SpikingLayerTs.SpikingLayer.step E L I dt t).2.inhibitions.getD j 0
        = ((List.range L.size).map (fun i =>
            if i = j then 0
            else -((matGet L.inhibitorySynapses i j).inhibitoryCurrent
              * E (-dt / (matGet L.inhibitorySynapses i j).p.tauDecay)))).sum) ∧
    (∀ i < L.size,
      (SpikingLayerTs.SpikingLayer.step E L I dt t).2.spikes.getD i false
        = ((L.neurons.getD i default).step
            (I.getD i 0 +
              (SpikingLayerTs.SpikingLayer.step E L I dt t).2.inhibitions.getD i 0)
            dt t).2 ∧
      (SpikingLayerTs.SpikingLayer.step E L I dt t).1.neurons.getD i default
        = ((L.neurons.getD i default).step
            (I.getD i 0 +
              (SpikingLayerTs.SpikingLayer.step E L I dt t).2.inhibitions.getD i 0)
            dt t).1) ∧
    (∀ i < L.size, ∀ j < L.size, i ≠ j →
      matGet (SpikingLayerTs.SpikingLayer.step E L I dt t).1.inhibitorySynapses i j
        = (if (SpikingLayerTs.SpikingLayer.step E L I dt t).2.spikes.getD i false
           then ((matGet L.inhibitorySynapses i j).decay E dt).onPreSpike
           else (matGet L.inhibitorySynapses i j).decay E dt)) ∧
    (∀ i < L.size,
      matGet (SpikingLayerTs.SpikingLayer.step E L I dt t).1.inhibitorySynapses i i
        = matGet L.inhibitorySynapses i i) := by
  have hinh : (SpikingLayerTs.SpikingLayer.step E L I dt t).2.inhibitions
      = SpikingLayerTs.SpikingLayer.inhibVec E L dt := rfl
  refine ⟨fun j hj => ?_, fun i hi => ?_, fun i hi j hj hij => ?_, fun i hi => ?_⟩
  · rw [hinh]
    exact SpikingLayerTs.inhibVec_getD E L dt j hE hj
  · rw [hinh]
    exact ⟨SpikingLayerTs.step_spikes_getD E L I dt t i hi,
           SpikingLayerTs.step_neurons_getD E L I dt t i hi⟩
  · rw [SpikingLayerTs.step_mat2, if_pos hE,
      matGet_range _ L.size i j hi hj,
      SpikingLayerTs.decayedMat_offdiag E L dt i j hE hi hj hij]
    by_cases hsp : ((SpikingLayerTs.SpikingLayer.steppedNeurons E L I dt t).map
        (fun x => x.2)).getD i false
    · rw [if_pos ⟨hsp, hij⟩]
      have hsp2 : (SpikingLayerTs.SpikingLayer.step E L I dt t).2.spikes.getD i false
          = true := hsp
      rw [if_pos hsp2]
    · rw [if_neg (fun hcon => hsp hcon.1)]
      have hsp2 : ¬ (SpikingLayerTs.SpikingLayer.step E L I dt t).2.spikes.getD i false
          = true := hsp
      rw [if_neg hsp2]
  · rw [SpikingLayerTs.step_mat2, if_pos hE,
      matGet_range _ L.size i i hi hi,
      if_neg (fun hcon => hcon.2 rfl)]
    exact SpikingLayerTs.decayedMat_diag E L dt i hE hi

/-- Witness for C2 at a concrete two-neuron layer with one driven input. -/
theorem layer_step_order_witness :
    (∀ j < (SpikingLayerTs.SpikingLayer.create { size := 2 }).size,
      (SpikingLayerTs.SpikingLayer.step expOne
        (SpikingLayerTs.SpikingLayer.create { size := 2 }) [2, 0] 1 0).2.inhibitions.getD j 0
        = ((List.range (SpikingLayerTs.SpikingLayer.create { size := 2 }).size).map (fun i =>
            if i = j then 0
            else -((matGet (SpikingLayerTs.SpikingLayer.create { size := 2 }).inhibitorySynapses i j).inhibitoryCurrent
              * expOne (-1 / (matGet (SpikingLayerTs.SpikingLayer.create { size := 2 }).inhibitorySynapses i j).p.tauDecay)))).sum) ∧
    (∀ i < (SpikingLayerTs.SpikingLayer.create { size := 2 }).size,
      (SpikingLayerTs.SpikingLayer.step expOne
        (SpikingLayerTs.SpikingLayer.create { size := 2 }) [2, 0] 1 0).2.spikes.getD i false
        = (((SpikingLayerTs.SpikingLayer.create { size := 2 }).neurons.getD i default).step
            (([2, 0] : List ℚ).getD i 0 +
              (SpikingLayerTs.SpikingLayer.step expOne
                (SpikingLayerTs.SpikingLayer.create { size := 2 }) [2, 0] 1 0).2.inhibitions.getD i 0)
            1 0).2 ∧
      (SpikingLayerTs.SpikingLayer.step expOne
        (SpikingLayerTs.SpikingLayer.create { size := 2 }) [2, 0] 1 0).1.neurons.getD i default
        = (((SpikingLayerTs.SpikingLayer.create { size := 2 }).neurons.getD i default).step
            (([2, 0] : List ℚ).getD i 0 +
              (SpikingLayerTs.SpikingLayer.step expOne
                (SpikingLayerTs.SpikingLayer.create { size := 2 }) [2, 0] 1 0).2.inhibitions.getD i 0)
            1 0).1) ∧
    (∀ i < (SpikingLayerTs.SpikingLayer.create { size := 2 }).size,
      ∀ j < (SpikingLayerTs.SpikingLayer.create { size := 2 }).size, i ≠ j →
      matGet (SpikingLayerTs.SpikingLayer.step expOne
        (SpikingLayerTs.SpikingLayer.create { size := 2 }) [2, 0] 1 0).1.inhibitorySynapses i j
        = (if (SpikingLayerTs.SpikingLayer.step expOne
              (SpikingLayerTs.SpikingLayer.create { size := 2 }) [2, 0] 1 0).2.spikes.getD i false
           then ((matGet (SpikingLayerTs.SpikingLayer.create { size := 2 }).inhibitorySynapses i j).decay expOne 1).onPreSpike
           else (matGet (SpikingLayerTs.SpikingLayer.create { size := 2 }).inhibitorySynapses i j).decay expOne 1)) ∧
    (∀ i < (SpikingLayerTs.SpikingLayer.create { size := 2 }).size,
      matGet (SpikingLayerTs.SpikingLayer.step expOne
        (SpikingLayerTs.SpikingLayer.create { size := 2 }) [2, 0] 1 0).1.inhibitorySynapses i i
        = matGet (SpikingLayerTs.SpikingLayer.create { size := 2 }).inhibitorySynapses i i) :=
  layer_step_order expOne (SpikingLayerTs.SpikingLayer.create { size := 2 })
    [2, 0] 1 0 (by with_unfolding_all decide)
